import Mathlib

/-!
# Verification of the ynab-files-converter statement-parsing core

Shallow embedding of the multi-vendor bank/credit-card statement parsing and
normalization engine: JavaScript-like dynamic values, the string/number
coercions the analyzers rely on, the per-vendor field-mapping pipelines
(Bank Hapoalim, Cal, Max, Mizrahi Tfahot, Discount), the vendor-detection
dispatchers, and the balance-reconciliation arithmetic.

JavaScript numbers are modelled as exact rationals (`ℚ`); `NaN`, `null`,
`undefined` and booleans are explicit constructors of `JsVal`.  String cells
coming from `papaparse` / `XLSX.sheet_to_json(raw:false)` are modelled as
`String`; spreadsheet cells that may be numeric are modelled as `JsVal`.
-/

deriving instance DecidableEq for Except

namespace Ynab

/-- A JavaScript runtime value, restricted to the shapes that flow through the
analyzers: strings, (finite) numbers, `NaN`, booleans, `null`, `undefined`. -/
inductive JsVal where
  | vStr (s : String)
  | vNum (q : ℚ)
  | vNaN
  | vBool (b : Bool)
  | vNull
  | vUndefined
deriving DecidableEq, Repr

/-- JavaScript truthiness: `""`, `0`, `NaN`, `false`, `null`, `undefined`
are falsy, everything else truthy. -/
def truthy : JsVal → Bool
  | .vStr s => s ≠ ""
  | .vNum q => q ≠ 0
  | .vNaN => false
  | .vBool b => b
  | .vNull => false
  | .vUndefined => false

/-- Numeric value of a decimal digit character. -/
def digitVal (c : Char) : ℕ := c.toNat - '0'.toNat

/-- Value of a digit list read in base 10 (used by the JS parsing functions). -/
def natOfDigits (l : List Char) : ℕ := l.foldl (fun a c => 10 * a + digitVal c) 0

/-- Fractional value of the digit list `l` read after a decimal point. -/
def fracOfDigits (l : List Char) : ℚ := (natOfDigits l : ℚ) / ((10 : ℚ) ^ l.length)

/-- Drop whitespace from both ends of a char list (JS `String.prototype.trim`,
restricted to the whitespace class `Char.isWhitespace`). -/
def trimChars (l : List Char) : List Char :=
  ((l.dropWhile Char.isWhitespace).reverse.dropWhile Char.isWhitespace).reverse

/-- JS `String.prototype.trim`. -/
def jsTrim (s : String) : String := ⟨trimChars s.data⟩

/-- Leading sign of a char list: returns (sign, rest). -/
def signSplit : List Char → ℤ × List Char
  | [] => (1, [])
  | a :: t => if a = '-' then (-1, t) else if a = '+' then (1, t) else (1, a :: t)

/-- JS `parseInt(s)` (radix 10, no exponent): skip leading whitespace, optional
sign, then the longest leading digit run; `none` models `NaN`. -/
def jsParseInt (s : String) : Option ℤ :=
  let l := s.data.dropWhile Char.isWhitespace
  let (sg, l) := signSplit l
  let ds := l.takeWhile Char.isDigit
  if ds.isEmpty then none else some (sg * (natOfDigits ds : ℤ))

/-- JS `parseFloat(s)` for the decimal fragment (no exponents, which never
occur in the statement data): longest valid numeric prefix after optional
whitespace and sign; `none` models `NaN`. -/
def jsParseFloat (s : String) : Option ℚ :=
  let l := s.data.dropWhile Char.isWhitespace
  let (sg, l) := signSplit l
  let ds := l.takeWhile Char.isDigit
  let rest := l.dropWhile Char.isDigit
  let fs := match rest with
    | '.' :: r => r.takeWhile Char.isDigit
    | _ => []
  if ds.isEmpty ∧ fs.isEmpty then none
  else some ((sg : ℚ) * ((natOfDigits ds : ℚ) + fracOfDigits fs))

/-- JS `Number(s)` for the decimal fragment: the whole (trimmed) string must be
a decimal literal; the empty string converts to `0`; `none` models `NaN`. -/
def jsStringToNumber (s : String) : Option ℚ :=
  let l := trimChars s.data
  if l.isEmpty then some 0
  else
    let (sg, l) := signSplit l
    let ds := l.takeWhile Char.isDigit
    let rest := l.dropWhile Char.isDigit
    match rest with
    | [] => if ds.isEmpty then none else some ((sg : ℚ) * (natOfDigits ds : ℚ))
    | '.' :: fs =>
      if fs.all Char.isDigit ∧ ¬(ds.isEmpty ∧ fs.isEmpty) then
        some ((sg : ℚ) * ((natOfDigits ds : ℚ) + fracOfDigits fs))
      else none
    | _ => none

/-- Global JS `isNaN` (applies `ToNumber` to its argument first):
`isNaN(null) = false` because `Number(null) = 0`, while
`isNaN(undefined) = true`. -/
def jsIsNaN : JsVal → Bool
  | .vStr s => (jsStringToNumber s).isNone
  | .vNum _ => false
  | .vNaN => true
  | .vBool _ => false
  | .vNull => false
  | .vUndefined => true

/-- JS `x.toFixed(0)` / `Math.round(x)` on an exact value: round to the nearest
integer, ties toward `+∞`. -/
def jsRound (q : ℚ) : ℤ := ⌊q + 1 / 2⌋

/-- Remove the first occurrence of the character `c`
(JS `s.replace('.', '')` replaces only the first occurrence). -/
def removeFirstChar (c : Char) : List Char → List Char
  | [] => []
  | a :: as => if a = c then as else a :: removeFirstChar c as

/-- JS `s.split(sep)` for a one-character separator. -/
def splitChar (c : Char) : List Char → List (List Char)
  | [] => [[]]
  | a :: as =>
    match splitChar c as with
    | [] => [[]]
    | h :: t => if a = c then [] :: h :: t else (a :: h) :: t

/-- `s.split(c)` as strings. -/
def jsSplit (c : Char) (s : String) : List String :=
  (splitChar c s.data).map fun l => (⟨l⟩ : String)

/-- JS `s.padStart(2, '0')`. -/
def padStart2 (s : String) : String :=
  if s.length < 2 then ⟨List.replicate (2 - s.length) '0' ++ s.data⟩ else s

/-- Does `hay` contain `needle` as a contiguous sublist
(JS `String.prototype.includes`)? -/
def hasSubList (needle : List Char) : List Char → Bool
  | [] => needle.isEmpty
  | c :: rest => needle.isPrefixOf (c :: rest) || hasSubList needle rest

/-- JS `hay.includes(needle)`. -/
def jsIncludes (hay needle : String) : Bool := hasSubList needle.data hay.data

/-- JS `s.startsWith(prefixStr)`. -/
def jsStartsWith (s pre : String) : Bool := pre.data.isPrefixOf s.data

/-- JS `s.endsWith(suffixStr)`. -/
def jsEndsWith (s suf : String) : Bool := suf.data.isSuffixOf s.data

/-- JS `s.toUpperCase()` (ASCII; Hebrew letters are unaffected). -/
def jsToUpper (s : String) : String := ⟨s.data.map Char.toUpper⟩

/-- JS `s.toLowerCase()` (ASCII; Hebrew letters are unaffected). -/
def jsToLower (s : String) : String := ⟨s.data.map Char.toLower⟩

/-- JS `s.substring(a, b)` (for `a ≤ b`): characters `[a, b)`. -/
def jsSubstring (s : String) (a b : ℕ) : String := ⟨(s.data.drop a).take (b - a)⟩

/-!
## JS objects as association lists

A parsed CSV row (`papaparse` with `header: true`) is a JS object whose
values are strings; the transformed transaction accumulates `JsVal` values.
Property read of an absent key yields `undefined`; property write replaces an
existing entry in place or appends a new one (JS insertion order).
-/

/-- Row of string cells keyed by header (a `papaparse` row object);
`none` models an absent property (`undefined`). -/
def rowGet? (row : List (String × String)) (k : String) : Option String :=
  (row.find? fun p => p.1 = k).map (·.2)

/-- Object holding transformed transaction fields. -/
abbrev TargetMap := List (String × JsVal)

/-- Property read, `undefined` when absent. -/
def tmGet (m : TargetMap) (k : String) : JsVal :=
  ((m.find? fun p => p.1 = k).map (·.2)).getD .vUndefined

/-- Property write: replace in place or append. -/
def tmSet (m : TargetMap) (k : String) (v : JsVal) : TargetMap :=
  match m with
  | [] => [(k, v)]
  | (k', v') :: t => if k' = k then (k, v) :: t else (k', v') :: tmSet t k v

@[simp]
theorem tmGet_nil (k : String) : tmGet [] k = .vUndefined := rfl

@[simp]
theorem tmGet_cons (k' : String) (v : JsVal) (t : TargetMap) (k : String) :
    tmGet ((k', v) :: t) k = if k' = k then v else tmGet t k := by
  by_cases h : k' = k <;> simp [tmGet, List.find?, h]

@[simp]
theorem rowGet?_nil (k : String) : rowGet? [] k = none := rfl

@[simp]
theorem rowGet?_cons (k' v : String) (t : List (String × String)) (k : String) :
    rowGet? ((k', v) :: t) k = if k' = k then some v else rowGet? t k := by
  by_cases h : k' = k <;> simp [rowGet?, List.find?, h]

/-- A field mapping whose transform consumes the raw string cell
(`{source, target, transform?}` in `fileAnalyzer.ts`). -/
structure SFieldMapping where
  source : String
  target : String
  transform : Option (String → JsVal)

/-- One step of the shared mapping loop of `analyzePoalimFile` /
`analyzeIsracardFile` / `processMaxSheet`:
`if (value !== undefined && !transformedRow[mapping.target]) { ... }` —
first writer wins unless the already-written value is falsy. -/
def applyMappingFW (row : List (String × String)) (acc : TargetMap)
    (m : SFieldMapping) : TargetMap :=
  match rowGet? row m.source with
  | none => acc
  | some value =>
    if truthy (tmGet acc m.target) then acc
    else tmSet acc m.target (match m.transform with
      | none => .vStr value
      | some f => f value)

/-!
## Bank Hapoalim (Poalim) analyzer — `poalimAnalyzer.ts`
-/

/-- Transform of the `חובה` (debit) column:
`if (!value) return null; const num = parseInt(value.replace('.', ''));
return isNaN(num) ? null : num * -10;`. -/
def poalimDebitTransform (value : String) : JsVal :=
  if value = "" then .vNull
  else match jsParseInt ⟨removeFirstChar '.' value.data⟩ with
    | none => .vNull
    | some n => .vNum (-10 * (n : ℚ))

/-- Transform of the `זכות` (credit) column: as the debit transform but
`num * 10`. -/
def poalimCreditTransform (value : String) : JsVal :=
  if value = "" then .vNull
  else match jsParseInt ⟨removeFirstChar '.' value.data⟩ with
    | none => .vNull
    | some n => .vNum (10 * (n : ℚ))

/-- `POALIM_FIELD_MAPPINGS`, in source order: the debit mapping precedes the
credit mapping, both targeting `amount`. -/
def POALIM_FIELD_MAPPINGS : List SFieldMapping :=
  [ ⟨"תאריך", "date", none⟩,
    ⟨"תיאור הפעולה", "payee_name", none⟩,
    ⟨"פרטים", "memo", none⟩,
    ⟨"חובה", "amount", some poalimDebitTransform⟩,
    ⟨"זכות", "amount", some poalimCreditTransform⟩ ]

/-- The row-to-record loop of `analyzePoalimFile`: fold the field mappings
over an empty transformed row with the first-writer-unless-falsy policy. -/
def poalimTransformRow (row : List (String × String)) : TargetMap :=
  POALIM_FIELD_MAPPINGS.foldl (applyMappingFW row) []

/-- A full Poalim CSV row under the nine Poalim headers. -/
def poalimRow (dt op prt acct ref vdt debit credit bal : String) :
    List (String × String) :=
  [ ("תאריך", dt), ("תיאור הפעולה", op), ("פרטים", prt), ("חשבון", acct),
    ("אסמכתא", ref), ("תאריך ערך", vdt), ("חובה", debit), ("זכות", credit),
    ("יתרה לאחר פעולה", bal) ]

/-!
## Vendor date transforms

`CAL_FIELD_MAPPINGS` (analyzers/calAnalyzer.ts), `ISRACARD_FIELD_MAPPINGS`
(utils/isracardAnalyzer.ts) and `MAX_FIELD_MAPPINGS` (utils/maxAnalyzer.ts)
each carry a date transform.  All three destructure
`const [day, month, year] = value.split(sep)`; only Cal checks the components
and only Cal prefixes `20` to the year.  A missing component interpolates as
the literal string `"undefined"` in Isracard/Max (JS template literal). -/

/-- Is an optional destructured component falsy (`undefined` or `""`)? -/
def compFalsy : Option String → Bool
  | none => true
  | some s => s = ""

/-- Interpolation `${x}` of a possibly-undefined component. -/
def compInterp : Option String → String
  | none => "undefined"
  | some s => s

/-- Cal date transform (`analyzers/calAnalyzer.ts`): split on `/`, bail out to
the input unless day/month/year are all truthy, then emit
`` `20${year}-${month.padStart(2,'0')}-${day.padStart(2,'0')}` ``. -/
def calDateString (value : String) : String :=
  if value = "" ∨ ¬ value.data.contains '/' then value
  else
    let parts := jsSplit '/' value
    let day := parts[0]?
    let month := parts[1]?
    let year := parts[2]?
    if compFalsy day ∨ compFalsy month ∨ compFalsy year then value
    else "20" ++ compInterp year ++ "-" ++ padStart2 (compInterp month) ++ "-"
      ++ padStart2 (compInterp day)

/-- The shared shape of the Isracard and Max date transforms (their bodies
are identical up to the separator): split on the separator, no component
checks and no year expansion:
`` `${year}-${month.padStart(2,'0')}-${day.padStart(2,'0')}` ``. -/
def sepDateString (sep : Char) (value : String) : String :=
  if value = "" ∨ ¬ value.data.contains sep then value
  else
    let parts := jsSplit sep value
    compInterp parts[2]? ++ "-" ++ padStart2 (compInterp parts[1]?)
      ++ "-" ++ padStart2 (compInterp parts[0]?)

/-- Isracard date transform (`utils/isracardAnalyzer.ts`): split on `/`. -/
def isracardDateString (value : String) : String := sepDateString '/' value

/-- Max date transform (`utils/maxAnalyzer.ts`): split on `-`. -/
def maxDateString (value : String) : String := sepDateString '-' value

/-!
## Cal analyzer — `analyzers/calAnalyzer.ts`
-/

/-- `header.replace(/[\n\r]+/g, ' ')`: each maximal run of `\n`/`\r` becomes a
single space (a run character is dropped when the next character continues
the run, and becomes the space when it ends it). -/
def collapseNL : List Char → List Char
  | [] => []
  | c :: rest =>
    if c = '\n' ∨ c = '\r' then
      match rest with
      | d :: _ =>
        if d = '\n' ∨ d = '\r' then collapseNL rest else ' ' :: collapseNL rest
      | [] => [' ']
    else c :: collapseNL rest

/-- `normalizeHeaderString` from `calAnalyzer.ts`:
`header ? header.replace(/[\n\r]+/g, ' ').trim() : header`. -/
def normalizeHeaderString (s : String) : String :=
  if s = "" then s else jsTrim ⟨collapseNL s.data⟩

/-- Transform of the `סכום חיוב` (charge amount) column of Cal: empty input
becomes `0`, the sentinel `לא מספר` becomes `null`, otherwise strip `₪`,
whitespace and commas, `parseFloat`, and `Math.floor(num * -1000)`
(`null` when the parse fails). -/
def calAmountTransform (value : String) : JsVal :=
  if value = "" then .vNum 0
  else if value = "לא מספר" then .vNull
  else
    match jsParseFloat
        ⟨value.data.filter fun c => ¬(c = '₪' ∨ c.isWhitespace ∨ c = ',')⟩ with
    | none => .vNull
    | some q => .vNum (⌊q * (-1000)⌋ : ℚ)

/-- `CAL_FIELD_MAPPINGS` (analyzers/calAnalyzer.ts). -/
def CAL_FIELD_MAPPINGS : List SFieldMapping :=
  [ ⟨"תאריך עסקה", "date", some fun v => .vStr (calDateString v)⟩,
    ⟨"שם בית עסק", "payee_name", none⟩,
    ⟨"סכום חיוב", "amount", some calAmountTransform⟩,
    ⟨"הערות", "memo", none⟩ ]

/-- A sheet as produced by `XLSX.utils.sheet_to_json(sheet, {header: 1,
raw: false})`: rows of string cells, `none` for an empty/absent cell. -/
abbrev CalSheet := List (List (Option String))

/-- `row[i]` where both a hole and an out-of-range index read as
`undefined`. -/
def cellAt (row : List (Option String)) (i : ℕ) : Option String :=
  row[i]?.getD none

/-- The header-row predicate of `analyzeCalFile`'s `findIndex`: at least two
cells, and the normalized first two cells are the Cal transaction headers. -/
def calIsHeaderRow (row : List (Option String)) : Bool :=
  decide (2 ≤ row.length)
    && ((cellAt row 0).map normalizeHeaderString == some "תאריך עסקה")
    && ((cellAt row 1).map normalizeHeaderString == some "שם בית עסק")

/-- Index of the Cal header row (`findIndex`, `none` for `-1`). -/
def calHeadersIndex (sheet : CalSheet) : Option ℕ := sheet.findIdx? calIsHeaderRow

/-- The transaction-block scan shared by the analyzers:
`if (!row || row.length === 0 || !row[0]) break;`. -/
def rowsUntilBlank : List (List (Option String)) → List (List (Option String))
  | [] => []
  | r :: rest =>
    if r.isEmpty ∨ compFalsy (cellAt r 0) then []
    else r :: rowsUntilBlank rest

/-- JS object property write for string-valued objects. -/
def setS (m : List (String × String)) (k : String) (v : String) :
    List (String × String) :=
  match m with
  | [] => [(k, v)]
  | (k', v') :: t => if k' = k then (k, v) :: t else (k', v') :: setS t k v

/-- `headers.forEach((header, index) => { if (header && row[index])
transaction[header] = row[index]; })`, walking headers and row cells in
lockstep (`row[index]` is `undefined` beyond the row's length). -/
def buildRawTxGo (acc : List (String × String)) :
    List (Option String) → List (Option String) → List (String × String)
  | [], _ => acc
  | _ :: hs, [] => buildRawTxGo acc hs []
  | h :: hs, v :: vs =>
    buildRawTxGo
      (match h, v with
        | some hs', some vs' =>
          if hs' ≠ "" ∧ vs' ≠ "" then setS acc hs' vs' else acc
        | _, _ => acc)
      hs vs

/-- The raw transaction object built from one sheet row. -/
def buildRawTx (headers row : List (Option String)) : List (String × String) :=
  buildRawTxGo [] headers row

/-- Initial transformed row of `analyzeCalFile`:
`{date: '', payee_name: '', amount: 0, memo: ''}`. -/
def calInitTx : TargetMap :=
  [("date", .vStr ""), ("payee_name", .vStr ""), ("amount", .vNum 0),
    ("memo", .vStr "")]

/-- The row transform of `analyzeCalFile`: iterate the row's own entries,
look the normalized key up in the header mapping (the mapping sources have
pairwise distinct normalizations, so `find?` agrees with the JS `Map`),
assign unconditionally, and patch a falsy memo back to `''`.
No row is dropped — the source comments
"Don't filter out transactions with null amounts". -/
def calTransformTx (row : List (String × String)) : TargetMap :=
  let t := row.foldl
    (fun acc kv =>
      match CAL_FIELD_MAPPINGS.find?
          (fun m => normalizeHeaderString m.source = normalizeHeaderString kv.1) with
      | none => acc
      | some m => tmSet acc m.target (match m.transform with
        | none => .vStr kv.2
        | some f => f kv.2))
    calInitTx
  if truthy (tmGet t "memo") then t else tmSet t "memo" (.vStr "")

/-- Raw transaction rows of `analyzeCalFile`: rows after the header row up to
the first blank/dateless row, keyed by the normalized headers. -/
def calRawTransactions (sheet : CalSheet) : List (List (String × String)) :=
  match calHeadersIndex sheet with
  | none => []
  | some i =>
    let headers := (sheet[i]?.getD []).map (Option.map normalizeHeaderString)
    (rowsUntilBlank (sheet.drop (i + 1))).map (buildRawTx headers)

/-- The transaction list returned by `analyzeCalFile`. -/
def calTransactions (sheet : CalSheet) : List TargetMap :=
  (calRawTransactions sheet).map calTransformTx

/-!
## `extractAmountFromHebrewText` — `analyzers/calAnalyzer.ts`

The JS regex `/(\d{1,3}(,\d{3})*(\.\d{1,2})?|\d+\.\d{1,2}|\d+,\d{1,2})/g`
is embedded directly.  At any position starting with a digit the first
alternative always succeeds (its tail groups can match empty), so a global
scan takes, at each digit position, 1–3 digits, then `(,\d{3})*` greedily,
then `(\.\d{1,2})?` greedily, and resumes after the match; at a non-digit
position it advances one character.
-/

/-- Consume up to `n` leading digits (greedy `\d{0,n}`). -/
def takeUpToDigits : ℕ → List Char → List Char × List Char
  | 0, l => ([], l)
  | _, [] => ([], [])
  | n + 1, c :: rest =>
    if c.isDigit then
      let p := takeUpToDigits n rest
      (c :: p.1, p.2)
    else ([], c :: rest)

/-- Consume `(,\d{3})*` greedily. -/
def starCommaGroups : List Char → List Char × List Char
  | c0 :: a :: b :: c :: rest =>
    if c0 = ',' ∧ a.isDigit ∧ b.isDigit ∧ c.isDigit then
      let p := starCommaGroups rest
      (c0 :: a :: b :: c :: p.1, p.2)
    else ([], c0 :: a :: b :: c :: rest)
  | l => ([], l)

/-- Consume `(\.\d{1,2})?` greedily. -/
def optFrac : List Char → List Char × List Char
  | p :: a :: b :: rest =>
    if p = '.' ∧ a.isDigit then
      if b.isDigit then ([p, a, b], rest) else ([p, a], b :: rest)
    else ([], p :: a :: b :: rest)
  | [p, a] => if p = '.' ∧ a.isDigit then ([p, a], []) else ([], [p, a])
  | l => ([], l)

/-- The full match at a position whose first character `c` is a digit. -/
def matchNumFrom (c : Char) (rest : List Char) : List Char × List Char :=
  let p1 := takeUpToDigits 2 rest
  let p2 := starCommaGroups p1.2
  let p3 := optFrac p2.2
  (c :: (p1.1 ++ p2.1 ++ p3.1), p3.2)

theorem takeUpToDigits_len (n : ℕ) (l : List Char) :
    (takeUpToDigits n l).2.length ≤ l.length := by
  induction n generalizing l with
  | zero => simp [takeUpToDigits]
  | succ n ih =>
    cases l with
    | nil => simp [takeUpToDigits]
    | cons c rest =>
      by_cases hc : c.isDigit
      · have := ih rest
        simp [takeUpToDigits, hc]
        omega
      · simp [takeUpToDigits, hc]

theorem starCommaGroups_len (l : List Char) :
    (starCommaGroups l).2.length ≤ l.length := by
  induction l using starCommaGroups.induct with
  | case1 c0 a b c rest h ih =>
    rw [starCommaGroups, if_pos h]
    simp only [List.length_cons]
    omega
  | case2 c0 a b c rest h =>
    rw [starCommaGroups, if_neg h]
  | case3 l h =>
    match l, h with
    | [], _ => simp [starCommaGroups]
    | [a], _ => simp [starCommaGroups]
    | [a, b], _ => simp [starCommaGroups]
    | [a, b, c], _ => simp [starCommaGroups]
    | a₀ :: a₁ :: a₂ :: a₃ :: r, h => exact absurd rfl (h a₀ a₁ a₂ a₃ r)

theorem optFrac_len (l : List Char) : (optFrac l).2.length ≤ l.length := by
  match l with
  | p :: a :: b :: rest =>
    simp only [optFrac]
    split
    · split <;> simp only [List.length_cons] <;> omega
    · simp
  | [p, a] =>
    simp only [optFrac]
    split <;> simp
  | [] => simp [optFrac]
  | [p] => simp [optFrac]

theorem matchNumFrom_len (c : Char) (rest : List Char) :
    (matchNumFrom c rest).2.length ≤ rest.length := by
  have h1 := takeUpToDigits_len 2 rest
  have h2 := starCommaGroups_len (takeUpToDigits 2 rest).2
  have h3 := optFrac_len (starCommaGroups (takeUpToDigits 2 rest).2).2
  simp only [matchNumFrom]
  omega

/-- The scan loop, structured on a fuel argument so that it computes by
structural recursion; each step consumes at least one character, so any fuel
of at least the list's length yields the full scan. -/
def regexScanF : ℕ → List Char → List (List Char)
  | 0, _ => []
  | _, [] => []
  | fuel + 1, c :: rest =>
    if c.isDigit then
      (matchNumFrom c rest).1 :: regexScanF fuel (matchNumFrom c rest).2
    else regexScanF fuel rest

/-- `text.match(regex)` with the global flag: scan left to right, collecting
the matches. -/
def regexScan (l : List Char) : List (List Char) := regexScanF l.length l

/-- The longest-match selection loop (`let longestMatch = ''; ... if
(match.length > longestMatch.length) longestMatch = match`): the first of the
longest matches wins. -/
def longestMatch (ms : List (List Char)) : List Char :=
  ms.foldl (fun best m => if best.length < m.length then m else best) []

/-- `extractAmountFromHebrewText`: `null` for falsy input or when no numeric
substring matches; otherwise strip all commas from the longest match and
`parseFloat` it. -/
def extractAmountFromHebrewText (text : String) : Option ℚ :=
  if text = "" then none
  else
    let ms := regexScan text.data
    if ms.isEmpty then none
    else jsParseFloat ⟨(longestMatch ms).filter (· ≠ ',')⟩

/-!
## Max analyzer — `utils/maxAnalyzer.ts`

Sheets read without `raw: false` keep numeric cells, so rows are `JsVal`
cells here.
-/

/-- A raw sheet row of `JsVal` cells. -/
abbrev JRow := List JsVal

/-- `row[i]` on a `JsVal` row: hole or out-of-range reads as `undefined`. -/
def jCellAt (row : JRow) (i : ℕ) : JsVal := row[i]?.getD .vUndefined

/-- A field mapping whose transform consumes a raw `JsVal` cell. -/
structure JFieldMapping where
  source : String
  target : String
  transform : Option (JsVal → JsVal)

/-- The shared first-writer-unless-falsy mapping step, `JsVal` variant
(`processMaxSheet` / `analyzeIsracardFile`). -/
def applyMappingFWJ (row : TargetMap) (acc : TargetMap) (m : JFieldMapping) :
    TargetMap :=
  let value := tmGet row m.source
  if value = .vUndefined then acc
  else if truthy (tmGet acc m.target) then acc
  else tmSet acc m.target (match m.transform with
    | none => value
    | some f => f value)

/-- Transform of Max's `סכום חיוב` column: falsy input (including `NaN`)
becomes `null`; a string is cleaned of `₪`, whitespace and commas, parsed and
`Math.floor(num * -1000)`; a number is `Math.round(value * -1000)`; anything
else `null`. -/
def maxAmountTransform (value : JsVal) : JsVal :=
  if ¬ truthy value then .vNull
  else match value with
    | .vStr s =>
      match jsParseFloat
          ⟨s.data.filter fun c => ¬(c = '₪' ∨ c.isWhitespace ∨ c = ',')⟩ with
      | none => .vNull
      | some q => .vNum (⌊q * (-1000)⌋ : ℚ)
    | .vNum q => .vNum (jsRound (q * (-1000)) : ℚ)
    | _ => .vNull

/-- `MAX_FIELD_MAPPINGS` (utils/maxAnalyzer.ts); the date transform returns a
non-string value unchanged (`typeof value !== 'string'`). -/
def MAX_FIELD_MAPPINGS : List JFieldMapping :=
  [ ⟨"תאריך עסקה", "date", some fun v => match v with
      | .vStr s => .vStr (maxDateString s)
      | _ => v⟩,
    ⟨"שם בית העסק", "payee_name", none⟩,
    ⟨"סכום חיוב", "amount", some maxAmountTransform⟩,
    ⟨"הערות", "memo", none⟩ ]

/-- JS object key of a cell used as a property name.  Non-integer number
formatting is not modelled precisely; header cells in the data are strings,
so that corner is unexercised. -/
def jsKey : JsVal → String
  | .vStr s => s
  | .vNum q => if q.den = 1 then toString q.num else toString q
  | .vNaN => "NaN"
  | .vBool b => if b then "true" else "false"
  | .vNull => "null"
  | .vUndefined => "undefined"

/-- `headers.forEach((header, index) => { if (header && row[index])
transaction[header] = row[index]; })` on `JsVal` rows, walking headers and
row cells in lockstep. -/
def buildRawTxJGo (acc : TargetMap) : JRow → JRow → TargetMap
  | [], _ => acc
  | _ :: hs, [] => buildRawTxJGo acc hs []
  | h :: hs, v :: vs =>
    buildRawTxJGo (if truthy h ∧ truthy v then tmSet acc (jsKey h) v else acc) hs vs

/-- The raw transaction object built from one `JsVal` sheet row. -/
def buildRawTxJ (headers row : JRow) : TargetMap :=
  buildRawTxJGo [] headers row

/-- Transaction-block scan on `JsVal` rows:
`if (!row || row.length === 0 || !row[0]) break;`. -/
def jRowsUntilBlank : List JRow → List JRow
  | [] => []
  | r :: rest =>
    if r.isEmpty ∨ ¬ truthy (jCellAt r 0) then []
    else r :: jRowsUntilBlank rest

/-- The raw transaction objects of `processMaxSheet` (utils/maxAnalyzer.ts):
locate the header row by its first two cells and scan the block. -/
def maxRawTransactions (sheet : List JRow) : List TargetMap :=
  match sheet.findIdx? (fun r =>
      jCellAt r 0 = .vStr "תאריך עסקה" ∧ jCellAt r 1 = .vStr "שם בית העסק") with
  | none => []
  | some i =>
    let headers := sheet[i]?.getD []
    (jRowsUntilBlank (sheet.drop (i + 1))).map (buildRawTxJ headers)

/-- The transformed transaction list of `processMaxSheet`: apply the mappings
first-writer-unless-falsy, and drop a row only when
`isNaN(transformedRow.amount)` — note `isNaN(null) === false`. -/
def maxSheetTransactions (sheet : List JRow) : List TargetMap :=
  ((maxRawTransactions sheet).map fun row =>
    MAX_FIELD_MAPPINGS.foldl (applyMappingFWJ row) []).filter
    fun t => ¬ jsIsNaN (tmGet t "amount")

/-!
## Mizrahi Tfahot analyzer — `analyzers/mizrahiTfahotAnalyzer.ts`
-/

/-- Mizrahi date transform: like Cal's but without component checks and with
a `trim` before splitting. -/
def mizrahiDateString (value : String) : String :=
  if value = "" ∨ ¬ value.data.contains '/' then value
  else
    let parts := jsSplit '/' (jsTrim value)
    "20" ++ compInterp parts[2]? ++ "-" ++ padStart2 (compInterp parts[1]?)
      ++ "-" ++ padStart2 (compInterp parts[0]?)

/-- Transform of Mizrahi's `חובה` (debit) column: blank or `&nbsp;` becomes
`0`; otherwise `Number((Number(trimmed-without-commas) * -1000).toFixed(0))`
(`NaN` when the numeric conversion fails). -/
def mizrahiDebitTransform (value : String) : JsVal :=
  if value = "" ∨ jsTrim value = "" ∨ jsTrim value = "&nbsp;" then .vNum 0
  else match jsStringToNumber ⟨(jsTrim value).data.filter (· ≠ ',')⟩ with
    | none => .vNaN
    | some q => .vNum (jsRound (q * (-1000)) : ℚ)

/-- Transform of Mizrahi's `זכות` (credit) column: as the debit transform but
`* 1000` (positive). -/
def mizrahiCreditTransform (value : String) : JsVal :=
  if value = "" ∨ jsTrim value = "" ∨ jsTrim value = "&nbsp;" then .vNum 0
  else match jsStringToNumber ⟨(jsTrim value).data.filter (· ≠ ',')⟩ with
    | none => .vNaN
    | some q => .vNum (jsRound (q * 1000) : ℚ)

/-- `MIZRAHI_TFAHOT_FIELD_MAPPINGS`, in source order (debit before credit,
both targeting `amount`). -/
def MIZRAHI_TFAHOT_FIELD_MAPPINGS : List SFieldMapping :=
  [ ⟨"תאריך", "date", some fun v => .vStr (mizrahiDateString v)⟩,
    ⟨"סוג תנועה", "payee_name", none⟩,
    ⟨"חובה", "amount", some mizrahiDebitTransform⟩,
    ⟨"זכות", "amount", some mizrahiCreditTransform⟩,
    ⟨"אסמכתא", "memo", none⟩ ]

/-- `row['זכות'] && String(row['זכות']).trim() !== ''`. -/
def mizrahiHas (row : List (String × String)) (k : String) : Bool :=
  match rowGet? row k with
  | none => false
  | some s => s ≠ "" ∧ jsTrim s ≠ ""

/-- The row transform of `transformTransactions`
(analyzers/mizrahiTfahotAnalyzer.ts): initialize
`{date: '', amount: 0, payee_name: '', memo: ''}`, apply the mappings in
order with *unconditional* assignment, skipping the credit mapping when only
the debit column is populated and vice versa, then — if `amount === 0` —
re-apply the transform of the populated column. -/
def mizrahiTransformRow (row : List (String × String)) : TargetMap :=
  let hasCredit := mizrahiHas row "זכות"
  let hasDebit := mizrahiHas row "חובה"
  let init : TargetMap :=
    [("date", .vStr ""), ("amount", .vNum 0), ("payee_name", .vStr ""),
      ("memo", .vStr "")]
  let t := MIZRAHI_TFAHOT_FIELD_MAPPINGS.foldl
    (fun acc m =>
      if m.source = "זכות" ∧ hasDebit ∧ ¬ hasCredit then acc
      else if m.source = "חובה" ∧ hasCredit ∧ ¬ hasDebit then acc
      else match rowGet? row m.source with
        | none => acc
        | some v => tmSet acc m.target (match m.transform with
          | none => .vStr v
          | some f => f v))
    init
  if tmGet t "amount" = .vNum 0 ∧ hasCredit then
    tmSet t "amount" (mizrahiCreditTransform ((rowGet? row "זכות").getD "undefined"))
  else if tmGet t "amount" = .vNum 0 ∧ hasDebit then
    tmSet t "amount" (mizrahiDebitTransform ((rowGet? row "חובה").getD "undefined"))
  else t

/-- `transformTransactions` over a list of row objects (the JS-side
`filter(row => row !== null && typeof row === 'object')` is the identity on
the embedded rows, which are all objects). -/
def mizrahiTransformTransactions (rows : List (List (String × String))) :
    List TargetMap :=
  rows.map mizrahiTransformRow

/-!
## Balance extraction — Discount (`src/unnamed/part_017`) and Mizrahi
-/

/-- A worksheet as a map from cell references (`"E9"`, `"B1"`, …) to the
cell's `.v` value; `none` when the cell object is absent. -/
abbrev CellMap := String → Option JsVal

/-- `extractBalanceFromSheet` (Discount): read cell `E9`; a number is
returned as-is; a string is stripped of everything but digits, `.` and `-`
and converted with `Number` (note `Number('') = 0`); otherwise `null`. -/
def extractBalanceFromSheet (sheet : CellMap) : Option ℚ :=
  match sheet "E9" with
  | none => none
  | some v =>
    match v with
    | .vUndefined => none
    | .vNum q => some q
    | .vStr s =>
      match jsStringToNumber ⟨s.data.filter fun c => c.isDigit ∨ c = '.' ∨ c = '-'⟩ with
      | some q => some q
      | none => none
    | _ => none

/-- The `finalBalance` field returned by `analyzeDiscountFile`:
`if (finalBalance === null) { finalBalance = 0; }` — the missing-balance
outcome is coerced to `0`, never `null`. -/
def analyzeDiscountBalance (sheet : CellMap) : ℚ :=
  match extractBalanceFromSheet sheet with
  | none => 0
  | some b => b

/-- A workbook: its sheets in order. -/
abbrev Workbook := List CellMap

/-- `findBalanceInWorkbook` (Mizrahi): with more than one sheet, return the
value of cell `B1` of the second sheet when present, else `null`. -/
def findBalanceInWorkbook (wb : Workbook) : Option JsVal :=
  if 1 < wb.length then
    match wb[1]? with
    | none => none
    | some sheet =>
      match sheet "B1" with
      | none => none
      | some v => if v = .vUndefined then none else some v
  else none

/-- The `finalBalance` field returned by `analyzeMizrahiTfahotFile`:
"Make absolutely sure the final balance is not null, fallback to 0". -/
def analyzeMizrahiBalance (wb : Workbook) : JsVal :=
  match findBalanceInWorkbook wb with
  | none => .vNum 0
  | some v => v

/-!
## Balance reconciliation — `AccountBalancesReport` (TransactionsList.tsx)
and `FileUploadWithYNAB.tsx`
-/

/-- The directional note shown when the difference is negative. -/
def MISSING_NOTE : String := "Missing transactions in YNAB"

/-- The directional note shown when the difference is positive. -/
def EXTRA_NOTE : String := "Extra transactions in YNAB"

/-- `difference = fileBalance - cleared_balance`, `null` when the file
balance is unavailable (`AccountBalancesReport`, where `fileBalance` is
already in milliunits). -/
def reconDifference (fileBalance : Option ℚ) (clearedBalance : ℚ) : Option ℚ :=
  fileBalance.map (· - clearedBalance)

/-- The reconciliation note: shown only when `Math.abs(difference) > 0`;
"Missing transactions in YNAB" for a negative difference, "Extra transactions
in YNAB" for a positive one. -/
def reconNote (fileBalance : Option ℚ) (clearedBalance : ℚ) : Option String :=
  match reconDifference fileBalance clearedBalance with
  | none => none
  | some d => if |d| > 0 then (if d < 0 then some MISSING_NOTE else some EXTRA_NOTE)
      else none

/-- The `FileUploadWithYNAB.tsx` variant: the analyzer-reported file balance
is scaled by 1000 into milliunits before subtracting. -/
def reconDifferenceScaled (fileBalance : Option ℚ) (clearedBalance : ℚ) :
    Option ℚ :=
  fileBalance.map (fun b => b * 1000 - clearedBalance)

/-!
## Batch analysis — `analyzers/fileAnalyzer.ts`

`analyzeFile` branches on the file extension inside a `try/catch`.  The
`.csv` branch calls the `async` `analyzeCSVContent` **without `await`**
(line 252): the local `analysis` is the still-pending promise, reading
`.vendorInfo` / `.identifier` off it yields `undefined`, the
`vendorInfo?.analyzeFile` guard fails, and the promise's eventual
settlement — value or rejection of the CSV pipeline — is never observed, so
a CSV-path exception bypasses the `catch`.  The Excel branch is awaited or
synchronous throughout, so its exceptions do reach the `catch` and become
the error envelope.  Throw sites raise `new Error(message)`, modelled as
`Except String`; the awaited Excel pipeline is abstracted as `excelInner`
and the settlement of the un-awaited CSV promise as
`analyzeCSV content fileName`.  `analyzeFiles` is
`Promise.all(files.map(analyzeFile))`: an order-preserving gather of
per-file results, total because `analyzeFile` itself never rejects.
-/

/-- An uploaded file: name and raw content. -/
structure JsFile where
  name : String
  content : String
deriving DecidableEq, Repr

/-- What the `try` block of `analyzeFile` produces on success. -/
structure AnalyzePayload where
  vendorInfo : Option String
  identifier : Option String
  finalBalance : Option ℚ
  transactions : List TargetMap
deriving DecidableEq, Repr

/-- The per-file result envelope (`FileAnalysis` in fileAnalyzer.ts). -/
structure FileAnalysis where
  fileName : String
  vendorInfo : Option String
  identifier : Option String
  finalBalance : Option ℚ
  transactions : List TargetMap
  error : Option String
deriving DecidableEq, Repr

/-- The Excel-extension test of `analyzeFile` (lower-cased file name). -/
def isExcelName (name : String) : Bool :=
  jsEndsWith (jsToLower name) ".xls" || jsEndsWith (jsToLower name) ".xlsx"
    || jsEndsWith (jsToLower name) ".xlsm"

/-- `analyzeFile` (analyzers/fileAnalyzer.ts 242-300).  In the `.csv` branch
`analyzeCSVContent` is `async` and called without `await`, so `analysis`
holds the pending promise: its `.vendorInfo` and `.identifier` properties
read as `undefined`, and its settlement `analyzeCSV f.content f.name` is
discarded unobserved — a rejection there never reaches the `catch`.  In the
Excel branch every step is awaited or synchronous, so an exception from
`excelInner` is caught and converted to the error envelope. -/
def analyzeFileJs
    (analyzeCSV : String → String → Except String AnalyzePayload)
    (excelInner : JsFile → Except String AnalyzePayload)
    (f : JsFile) : FileAnalysis :=
  if jsEndsWith f.name ".csv" then
    let _analysis : Except String AnalyzePayload := analyzeCSV f.content f.name
    ⟨f.name, none, none, none, [], none⟩
  else if isExcelName f.name then
    match excelInner f with
    | .ok p =>
      ⟨f.name, p.vendorInfo, p.identifier, p.finalBalance, p.transactions, none⟩
    | .error msg => ⟨f.name, none, none, none, [], some msg⟩
  else ⟨f.name, none, none, none, [], none⟩

/-- `analyzeFiles(files) = Promise.all(files.map(analyzeFile))`. -/
def analyzeFilesJs
    (analyzeCSV : String → String → Except String AnalyzePayload)
    (excelInner : JsFile → Except String AnalyzePayload)
    (files : List JsFile) : List FileAnalysis :=
  files.map (analyzeFileJs analyzeCSV excelInner)

/-!
## CSV vendor dispatch

Two generations coexist in the repository.
`utils/fileAnalyzer.ts#analyzeCSVContent` returns
`{vendorInfo: null, identifier: null}` when nothing matches (also on parse
errors).  `analyzers/fileAnalyzer.ts#analyzeCSVContent` instead loops over
`REGISTERED_ANALYZERS` and **throws**
`'Unknown file format. Could not determine bank or credit card format.'`
when no detector matches.
-/

/-- The required headers of `utils/poalimAnalyzer.ts#isPoalimFile`. -/
def requiredPoalimHeaders : List String :=
  ["תאריך", "תיאור הפעולה", "פרטים", "חובה", "זכות", "יתרה לאחר פעולה"]

/-- `utils/poalimAnalyzer.ts#isPoalimFile`: `shekel` filename prefix and all
required headers present; the identifier is `fileName.substring(6, 15)`. -/
def isPoalimFileUtils (fileName : String) (headers : List String) :
    Option String :=
  if jsStartsWith (jsToLower fileName) "shekel"
      ∧ requiredPoalimHeaders.all (headers.contains ·) then
    some (jsSubstring fileName 6 15)
  else none

/-- `VENDOR_IDENTIFIERS` of `fileAnalyzer.ts`, in object-literal order. -/
def VENDOR_IDENTIFIERS : List (String × List String) :=
  [ ("AMAZON", ["AMAZON", "AMZN", "AMAZON.COM"]),
    ("STARBUCKS", ["STARBUCKS", "SBUX"]),
    ("NETFLIX", ["NETFLIX", "NETFLIX.COM"]),
    ("SPOTIFY", ["SPOTIFY", "SPOTIFY USA"]),
    ("APPLE", ["APPLE", "APPLE.COM", "ITUNES"]),
    ("GOOGLE", ["GOOGLE", "GOOGLE *", "GOOGLE.COM"]) ]

/-- `findVendorInText`: first vendor one of whose patterns occurs in the
upper-cased text. -/
def findVendorInText (text : String) : Option String :=
  VENDOR_IDENTIFIERS.findSome? fun p =>
    if p.2.any (fun pat => jsIncludes (jsToUpper text) pat) then some p.1
    else none

/-- The common columns scanned for vendor names. -/
def commonColumns : List String :=
  ["description", "merchant", "vendor", "payee", "name"]

/-- The row/column scan of `analyzeCSVContent`: first row and column whose
non-empty value names a known vendor. -/
def scanRowsForVendor (rows : List (List (String × String))) :
    Option (String × String) :=
  rows.findSome? fun row =>
    commonColumns.findSome? fun c =>
      match rowGet? row c with
      | none => none
      | some v => if v ≠ "" then (findVendorInText v).map ((·, v)) else none

/-- `utils/fileAnalyzer.ts#analyzeCSVContent`: `(vendorInfo?, identifier?)`;
parse errors and the no-match case both yield `(null, null)` — a valid
non-error outcome. -/
def utilsAnalyzeCSVContent (fileName : String) (hasParseErrors : Bool)
    (fields : List String) (rows : List (List (String × String))) :
    Option String × Option String :=
  if hasParseErrors then (none, none)
  else match isPoalimFileUtils fileName fields with
    | some id => (some "Bank Hapoalim", some id)
    | none =>
      match scanRowsForVendor rows with
      | some (vendor, id) => (some vendor, some id)
      | none => (none, none)

/-!
### The `analyzers/fileAnalyzer.ts` CSV dispatch

`analyzeCSVContent` hands the *parsed row objects* to each registered
`isVendorFile`, most of which expect an `XLSX` worksheet.
`XLSX.utils.sheet_to_json` of a plain array (which has no `!ref` key)
yields `[]` (xlsx library behavior), after which the Cal/Isracard/Max
detectors read a fixed row index of `[]` and throw a `TypeError`; the
Mizrahi and Discount detectors probe `sheet['A1']`, which is `undefined`
on an array, and return `null`; the Poalim detector
(`src/unnamed/part_017#isPoalimFile`) reads `Object.keys(headers[0])`,
which throws on an empty row list and otherwise compares the joined keys
against the Poalim header string.
-/

/-- Outcome of one registered CSV-path detector: `TypeError` |
matched? -/
abbrev DetectorResult := Except String Bool

/-- Cal detector on parsed CSV rows. -/
def calDetectCSV (fileName : String)
    (_rows : List (List (String × String))) : DetectorResult :=
  if ¬ jsStartsWith fileName "פירוט חיובים לכרטיס" then .ok false
  else .error "TypeError"

/-- Isracard detector on parsed CSV rows. -/
def isracardDetectCSV (fileName : String)
    (_rows : List (List (String × String))) : DetectorResult :=
  if ¬ jsStartsWith fileName "Export_" then .ok false
  else .error "TypeError"

/-- Max detector on parsed CSV rows. -/
def maxDetectCSV (fileName : String)
    (_rows : List (List (String × String))) : DetectorResult :=
  if ¬ jsIncludes (jsToLower fileName) "transaction-details_export_" then .ok false
  else .error "TypeError"

/-- Mizrahi detector on parsed CSV rows: `sheet_to_json` of the array is `[]`
and `results['A1']` is `undefined`, so no marker is ever found. -/
def mizrahiDetectCSV (_fileName : String)
    (_rows : List (List (String × String))) : DetectorResult :=
  .ok false

/-- The Poalim header-join string compared against
`Object.keys(headers[0]).join()`. -/
def POALIM_HEADER_JOIN : String :=
  "תאריך,תיאור הפעולה,פרטים,חשבון,אסמכתא,תאריך ערך,חובה,זכות,יתרה לאחר פעולה,"

/-- Poalim detector on parsed CSV rows
(`src/unnamed/part_017#isPoalimFile`). -/
def poalimDetectCSV (fileName : String)
    (rows : List (List (String × String))) : DetectorResult :=
  match rows with
  | [] => .error "TypeError"
  | r :: _ =>
    .ok (jsStartsWith (jsToLower fileName) "shekel"
      ∧ String.intercalate "," (r.map (·.1)) = POALIM_HEADER_JOIN)

/-- Discount detector on parsed CSV rows: the filename guard may pass but
`results['A1']` is `undefined`, so the conjunction is false. -/
def discountDetectCSV (_fileName : String)
    (_rows : List (List (String × String))) : DetectorResult :=
  .ok false

/-- `REGISTERED_ANALYZERS`, in registration order, as (name, CSV-path
detector) pairs. -/
def registeredCSVDetectors :
    List (String × (String → List (List (String × String)) → DetectorResult)) :=
  [ ("Cal", calDetectCSV), ("Isracard", isracardDetectCSV),
    ("Max", maxDetectCSV), ("MizrahiTfahot", mizrahiDetectCSV),
    ("Bank Hapoalim", poalimDetectCSV), ("Discount", discountDetectCSV) ]

/-- The error thrown by `analyzers/fileAnalyzer.ts#analyzeCSVContent` when no
registered detector matches. -/
def UNKNOWN_FORMAT_ERROR : String :=
  "Unknown file format. Could not determine bank or credit card format."

/-- The detector loop of `analyzers/fileAnalyzer.ts#analyzeCSVContent`:
first match wins (returning its vendor); a detector exception propagates;
exhaustion **throws** the unknown-format error. -/
def analyzersCSVDispatchLoop
    (ds : List (String × (String → List (List (String × String)) → DetectorResult)))
    (fileName : String) (rows : List (List (String × String))) :
    Except String String :=
  match ds with
  | [] => .error UNKNOWN_FORMAT_ERROR
  | (name, d) :: rest =>
    match d fileName rows with
    | .error e => .error e
    | .ok true => .ok name
    | .ok false => analyzersCSVDispatchLoop rest fileName rows

/-- `analyzers/fileAnalyzer.ts#analyzeCSVContent`'s dispatch step. -/
def analyzersCSVDispatch (fileName : String)
    (rows : List (List (String × String))) : Except String String :=
  analyzersCSVDispatchLoop registeredCSVDetectors fileName rows

/-!
## Excel-path detectors — `isCalFile`, `isIsracardFile`, `isMaxFile` (C10)

Each reads `XLSX.utils.sheet_to_json(sheet, {header: 1})` (here: the
`List JRow` itself) and indexes a fixed header row.  When the sheet has fewer
rows than that index, `sheetJson[k]` is `undefined` and the subsequent
`.some(...)` throws a `TypeError`.
-/

/-- `isCalFile` (analyzers/calAnalyzer.ts): filename prefix, then row 5
(index 4) must carry one of the Cal headers (exact match after
normalization); the identifier is `sheetJson[0][0]`. -/
def isCalFileDetect (fileName : String) (sheetJson : List JRow) :
    Except String (Option JsVal) :=
  if ¬ jsStartsWith fileName "פירוט חיובים לכרטיס" then .ok none
  else match sheetJson[4]? with
    | none => .error "TypeError"
    | some firstRow =>
      let isCal := firstRow.any fun cell =>
        match cell with
        | .vStr s => s ≠ ""
            ∧ (normalizeHeaderString s = "תאריך עסקה"
              ∨ normalizeHeaderString s = "שם בית עסק")
        | _ => false
      if isCal then .ok (some (jCellAt (sheetJson[0]?.getD []) 0))
      else .ok none

/-- `isIsracardFile` (utils/isracardAnalyzer.ts): `Export_` prefix, then row
6 (index 5) must *contain* one of the Isracard headers; the identifier is
`sheetJson[3][0]`. -/
def isIsracardFileDetect (fileName : String) (sheetJson : List JRow) :
    Except String (Option JsVal) :=
  if ¬ jsStartsWith fileName "Export_" then .ok none
  else match sheetJson[5]? with
    | none => .error "TypeError"
    | some firstRow =>
      let isIsracard := firstRow.any fun cell =>
        match cell with
        | .vStr s => s ≠ ""
            ∧ (jsIncludes s "תאריך רכישה" ∨ jsIncludes s "שם בית עסק")
        | _ => false
      if isIsracard then .ok (some (jCellAt (sheetJson[3]?.getD []) 0))
      else .ok none

/-- `isMaxFile` (utils/maxAnalyzer.ts): filename must contain
`transaction-details_export_` (lower-cased), then row 4 (index 3) must
contain one of the Max headers.  Note the return type: a **boolean**, not an
identifier string. -/
def isMaxFileDetect (fileName : String) (sheetJson : List JRow) :
    Except String Bool :=
  if ¬ jsIncludes (jsToLower fileName) "transaction-details_export_" then .ok false
  else match sheetJson[3]? with
    | none => .error "TypeError"
    | some firstRow =>
      .ok (firstRow.any fun cell =>
        match cell with
        | .vStr s => s ≠ ""
            ∧ (jsIncludes s "תאריך עסקה" ∨ jsIncludes s "שם בית העסק")
        | _ => false)

/-!
## Concrete fixtures
-/

/-- The Cal worksheet of the repository's `calAnalyzer` unit test: card
number in row 1, headers (with embedded newlines) in row 5, then three
transaction rows, the middle one carrying the `לא מספר` sentinel. -/
def calSheetSentinel : CalSheet :=
  [ [some "מספר כרטיס: 1234-5678-9012-3456"], [], [], [],
    [some "תאריך\nעסקה", some "שם בית עסק", some "סכום\nחיוב", some "הערות"],
    [some "10/04/25", some "סופר", some "100", some ""],
    [some "12/04/25", some "חנות", some "לא מספר", some ""],
    [some "13/04/25", some "תחבורה", some "30", some ""] ]

/-- The Max worksheet of the repository's `maxAnalyzer` unit test: headers in
row 4, then three transaction rows, the middle one carrying the `לא מספר`
sentinel. -/
def maxSheetSentinel : List JRow :=
  [ [], [.vStr "Max Statement"], [],
    [.vStr "תאריך עסקה", .vStr "שם בית העסק", .vStr "סכום חיוב", .vStr "הערות"],
    [.vStr "10-04-2025", .vStr "סופר", .vNum 100, .vStr ""],
    [.vStr "12-04-2025", .vStr "חנות", .vStr "לא מספר", .vStr ""],
    [.vStr "13-04-2025", .vStr "תחבורה", .vNum 30, .vStr ""] ]

/-- A well-formed Max worksheet whose header row sits at index 3. -/
def maxSheetDetect : List JRow :=
  [ [], [.vStr "Max Statement"], [],
    [.vStr "תאריך עסקה", .vStr "שם בית העסק", .vStr "סכום חיוב", .vStr "הערות"] ]

/-- A Mizrahi row object with the five mapped columns. -/
def mizrahiRow (dt payee debit credit memo : String) :
    List (String × String) :=
  [ ("תאריך", dt), ("סוג תנועה", payee), ("חובה", debit), ("זכות", credit),
    ("אסמכתא", memo) ]

/-- A worksheet with no cells at all. -/
def emptyCellMap : CellMap := fun _ => none

/-!
# Claim theorems
-/

/-- Counterexample to **C1**: `analyzeCSVContent` is `async` but called
without `await` (analyzers/fileAnalyzer.ts line 252), so a `.csv` file whose
analysis throws — as the dispatch does on `other.csv`, where no registered
detector matches — is *not* converted to the error envelope: `analyzeFile`
returns a success-shaped result with `vendorInfo` and `identifier`
`undefined` and no `error` field, the rejection escaping the `catch`
unobserved. -/
theorem batch_isolation_counterexample :
    analyzersCSVDispatch "other.csv" [[("foo", "bar")]]
      = .error UNKNOWN_FORMAT_ERROR
    ∧ analyzeFileJs (fun _ _ => .error UNKNOWN_FORMAT_ERROR)
        (fun _ => .ok ⟨none, none, none, []⟩) ⟨"other.csv", "foo\nbar"⟩
      = ⟨"other.csv", none, none, none, [], none⟩
    ∧ (⟨"other.csv", none, none, none, [], none⟩ : FileAnalysis)
      ≠ ⟨"other.csv", none, none, none, [], some UNKNOWN_FORMAT_ERROR⟩ := by
  refine ⟨by with_unfolding_all decide, by decide, by decide⟩

/-- **C1** (amended): `analyzeFiles` returns exactly one `FileAnalysis` per
input file, in input order, each entry the analysis of that file alone, and
never rejects; an exception in the awaited Excel pipeline is caught and
converted to `{fileName, error: message, vendorInfo: null, identifier:
null}`; but a `.csv` file's analysis runs un-awaited, so every `.csv` file
yields `{fileName, vendorInfo: undefined, identifier: undefined}` with no
`error` field regardless of how (or whether) its analysis settles — a
CSV-path exception bypasses the `catch` and is never surfaced. -/
theorem batch_isolation_amended
    (analyzeCSV : String → String → Except String AnalyzePayload)
    (excelInner : JsFile → Except String AnalyzePayload)
    (files : List JsFile) :
    (analyzeFilesJs analyzeCSV excelInner files).length = files.length
    ∧ (∀ i : ℕ, (analyzeFilesJs analyzeCSV excelInner files)[i]?
        = (files[i]?).map (analyzeFileJs analyzeCSV excelInner))
    ∧ (∀ f msg, jsEndsWith f.name ".csv" = false → isExcelName f.name = true →
        excelInner f = .error msg →
        analyzeFileJs analyzeCSV excelInner f
          = ⟨f.name, none, none, none, [], some msg⟩)
    ∧ (∀ f, jsEndsWith f.name ".csv" = true →
        analyzeFileJs analyzeCSV excelInner f
          = ⟨f.name, none, none, none, [], none⟩) := by
  refine ⟨List.length_map _ _, fun i => ?_, fun f msg h1 h2 h3 => ?_,
    fun f h => ?_⟩
  · simp [analyzeFilesJs]
  · simp [analyzeFileJs, h1, h2, h3]
  · simp [analyzeFileJs, h]

/-- Witness for `batch_isolation_amended`: an Excel file whose awaited
pipeline throws is converted to the error envelope, while a CSV file whose
un-awaited analysis rejects with the unknown-format error comes back
success-shaped with no `error` field. -/
theorem batch_isolation_amended_witness :
    analyzeFileJs (fun _ _ => .error UNKNOWN_FORMAT_ERROR)
        (fun _ => .error "Failed to process Discount bank file")
        ⟨"b.xlsx", ""⟩
      = ⟨"b.xlsx", none, none, none, [],
          some "Failed to process Discount bank file"⟩
    ∧ analyzeFileJs (fun _ _ => .error UNKNOWN_FORMAT_ERROR)
        (fun _ => .error "Failed to process Discount bank file")
        ⟨"other.csv", "foo\nbar"⟩
      = ⟨"other.csv", none, none, none, [], none⟩ :=
  ⟨(batch_isolation_amended (fun _ _ => .error UNKNOWN_FORMAT_ERROR)
      (fun _ => .error "Failed to process Discount bank file") []).2.2.1
      ⟨"b.xlsx", ""⟩ "Failed to process Discount bank file"
      (by decide) (by decide) rfl,
    (batch_isolation_amended (fun _ _ => .error UNKNOWN_FORMAT_ERROR)
      (fun _ => .error "Failed to process Discount bank file") []).2.2.2
      ⟨"other.csv", "foo\nbar"⟩ (by decide)⟩

/-- **C3**: the reconciliation difference is `fileBalance - clearedBalance`
(in `FileUploadWithYNAB.tsx` with the file balance first scaled by 1000 into
the same fixed-point unit); the note reads "Missing transactions" exactly
when the difference is negative and "Extra transactions" exactly when it is
positive; no note at zero; difference and note are both absent when the file
balance is unavailable; and `fileBalance = 14800000` against
`clearedBalance = 14500000` yields difference `300000` and the
"Extra transactions" direction. -/
theorem reconciliation_difference_direction :
    (∀ b c : ℚ, reconDifference (some b) c = some (b - c))
    ∧ (∀ c : ℚ, reconDifference none c = none ∧ reconNote none c = none)
    ∧ (∀ b c : ℚ, (reconNote (some b) c = some MISSING_NOTE ↔ b - c < 0))
    ∧ (∀ b c : ℚ, (reconNote (some b) c = some EXTRA_NOTE ↔ 0 < b - c))
    ∧ (∀ b c : ℚ, (reconNote (some b) c = none ↔ b - c = 0))
    ∧ (∀ b c : ℚ, reconDifferenceScaled (some b) c = some (b * 1000 - c))
    ∧ reconDifference (some 14800000) 14500000 = some 300000
    ∧ reconNote (some 14800000) 14500000 = some EXTRA_NOTE := by
  have hne : MISSING_NOTE ≠ EXTRA_NOTE := by decide
  have hchar : ∀ b c : ℚ, reconNote (some b) c =
      if b - c < 0 then some MISSING_NOTE
      else if 0 < b - c then some EXTRA_NOTE else none := by
    intro b c
    simp only [reconNote, reconDifference, Option.map_some', abs_pos]
    rcases lt_trichotomy (b - c) 0 with h | h | h
    · rw [if_pos (ne_of_lt h), if_pos h, if_pos h]
    · rw [if_neg (by simp [h]), if_neg (by simp [h]), if_neg (by simp [h])]
    · rw [if_pos (ne_of_gt h), if_neg (not_lt_of_gt h), if_neg (not_lt_of_gt h),
        if_pos h]
  refine ⟨fun b c => rfl, fun c => ⟨rfl, rfl⟩, fun b c => ?_, fun b c => ?_,
    fun b c => ?_, fun b c => rfl, ?_, ?_⟩
  · rw [hchar]
    rcases lt_trichotomy (b - c) 0 with h | h | h
    · simp [h]
    · simp [h]
    · simp [not_lt_of_gt h, h, hne.symm, ne_of_gt h]
  · rw [hchar]
    rcases lt_trichotomy (b - c) 0 with h | h | h
    · simp [h, hne, not_lt_of_gt h, asymm h]
    · simp [h]
    · simp [not_lt_of_gt h, h]
  · rw [hchar]
    rcases lt_trichotomy (b - c) 0 with h | h | h
    · simp [h, ne_of_lt h]
    · simp [h]
    · simp [not_lt_of_gt h, h, ne_of_gt h]
  · norm_num [reconDifference]
  · rw [hchar]
    norm_num

/-- Counterexample to **C2**: the Poalim transforms multiply by `±10` after
removing the first `.` from the cell — a credit cell `"5000"` becomes
`50000`, not the claimed `5000000`, and a debit cell `"200"` becomes `-2000`,
not the claimed `-200000` (the `×10` yields milliunits only for cells with
exactly two decimal digits, such as `"5000.00"`). -/
theorem poalim_amount_counterexample :
    tmGet (poalimTransformRow (poalimRow "01/05/25" "משכורת" "העברה" "123456"
        "1" "01/05/25" "" "5000" "6000.00")) "amount" = .vNum 50000
    ∧ tmGet (poalimTransformRow (poalimRow "10/05/25" "קניה" "" "123456" "2"
        "10/05/25" "200" "" "5800.00")) "amount" = .vNum (-2000)
    ∧ (50000 : ℚ) ≠ 5000000 ∧ (-2000 : ℚ) ≠ -200000 := by
  refine ⟨?_, ?_, by norm_num, by norm_num⟩
  · simp [poalimTransformRow, POALIM_FIELD_MAPPINGS, applyMappingFW, rowGet?,
      poalimRow, tmGet, tmSet, truthy, poalimDebitTransform,
      poalimCreditTransform, jsParseInt, removeFirstChar, signSplit,
      natOfDigits, digitVal, List.find?]
    norm_num
  · simp [poalimTransformRow, POALIM_FIELD_MAPPINGS, applyMappingFW, rowGet?,
      poalimRow, tmGet, tmSet, truthy, poalimDebitTransform,
      poalimCreditTransform, jsParseInt, removeFirstChar, signSplit,
      natOfDigits, digitVal, List.find?]
    norm_num

theorem splitChar_ne_nil (c : Char) (l : List Char) : splitChar c l ≠ [] := by
  cases l with
  | nil => simp [splitChar]
  | cons a as =>
    rw [splitChar]
    rcases splitChar c as with _ | ⟨h1, t⟩
    · simp
    · by_cases hac : a = c <;> simp [hac]

theorem splitChar_not_mem {c : Char} : ∀ {l : List Char}, c ∉ l →
    splitChar c l = [l] := by
  intro l
  induction l with
  | nil => intro _; rfl
  | cons a as ih =>
    intro h
    have ha : ¬(a = c) := fun e => h (by simp [e])
    rw [splitChar, ih (fun m => h (List.mem_cons_of_mem _ m))]
    simp [ha]

theorem splitChar_append {c : Char} : ∀ {l₁ : List Char} (l₂ : List Char),
    c ∉ l₁ → splitChar c (l₁ ++ c :: l₂) = l₁ :: splitChar c l₂ := by
  intro l₁
  induction l₁ with
  | nil =>
    intro l₂ _
    simp only [List.nil_append, splitChar]
    rcases h : splitChar c l₂ with _ | ⟨h1, t⟩
    · exact absurd h (splitChar_ne_nil c l₂)
    · simp
  | cons a as ih =>
    intro l₂ h
    have ha : ¬(a = c) := fun e => h (by simp [e])
    have ihh := ih l₂ (fun m => h (List.mem_cons_of_mem _ m))
    rw [List.cons_append, splitChar, ihh]
    simp [ha]

/-- Splitting `d ++ sep ++ m ++ sep ++ y` on `sep` recovers the three
components when none of them contains the separator. -/
theorem jsSplit_three (c : Char) (d m y : String) (hd : c ∉ d.data)
    (hm : c ∉ m.data) (hy : c ∉ y.data) :
    jsSplit c (d ++ (⟨[c]⟩ : String) ++ m ++ (⟨[c]⟩ : String) ++ y)
      = [d, m, y] := by
  have hdata : (d ++ (⟨[c]⟩ : String) ++ m ++ (⟨[c]⟩ : String) ++ y).data
      = d.data ++ c :: (m.data ++ c :: y.data) := by
    simp [String.data_append]
  rw [jsSplit, hdata, splitChar_append _ hd, splitChar_append _ hm,
    splitChar_not_mem hy]
  simp

/-- The concatenation `d ++ sep ++ m ++ sep ++ y` is non-empty and contains
the separator. -/
theorem sepConcat_facts (c : Char) (d m y : String) :
    (d ++ (⟨[c]⟩ : String) ++ m ++ (⟨[c]⟩ : String) ++ y) ≠ ""
    ∧ (d ++ (⟨[c]⟩ : String) ++ m ++ (⟨[c]⟩ : String) ++ y).data.contains c
      = true := by
  have hdata : (d ++ (⟨[c]⟩ : String) ++ m ++ (⟨[c]⟩ : String) ++ y).data
      = d.data ++ c :: (m.data ++ c :: y.data) := by
    simp [String.data_append]
  constructor
  · intro e
    have := congrArg String.data e
    rw [hdata] at this
    simp [String.data] at this
  · rw [hdata]
    simp [List.contains]

/-- **C4** (amended): each vendor's date transform handles its own
vendor-specific format — Cal emits `20YY-MM-DD` from `DD/MM/YY` (zero-padding
day and month, prefixing `20` to the year), Isracard emits `YYYY-MM-DD` from
`DD/MM/YYYY` and Max the same from `DD-MM-YYYY` (neither expands the year);
input without the vendor's separator is returned unchanged.  (Cross-format
and wrong-arity behavior is as in the counterexample, not as claimed.) -/
theorem date_transform_amended :
    (∀ d m y : String, d ≠ "" → m ≠ "" → y ≠ "" →
      '/' ∉ d.data → '/' ∉ m.data → '/' ∉ y.data →
      calDateString (d ++ "/" ++ m ++ "/" ++ y)
        = "20" ++ y ++ "-" ++ padStart2 m ++ "-" ++ padStart2 d)
    ∧ (∀ d m y : String, '/' ∉ d.data → '/' ∉ m.data → '/' ∉ y.data →
      isracardDateString (d ++ "/" ++ m ++ "/" ++ y)
        = y ++ "-" ++ padStart2 m ++ "-" ++ padStart2 d)
    ∧ (∀ d m y : String, '-' ∉ d.data → '-' ∉ m.data → '-' ∉ y.data →
      maxDateString (d ++ "-" ++ m ++ "-" ++ y)
        = y ++ "-" ++ padStart2 m ++ "-" ++ padStart2 d)
    ∧ (∀ v : String, ¬ v.data.contains '/' = true →
        calDateString v = v ∧ isracardDateString v = v)
    ∧ (∀ v : String, ¬ v.data.contains '-' = true → maxDateString v = v) := by
  have hsep : ∀ (c : Char) (d m y : String), c ∉ d.data → c ∉ m.data →
      c ∉ y.data →
      sepDateString c (d ++ (⟨[c]⟩ : String) ++ m ++ (⟨[c]⟩ : String) ++ y)
        = y ++ "-" ++ padStart2 m ++ "-" ++ padStart2 d := by
    intro c d m y hd hm hy
    obtain ⟨hne, hcont⟩ := sepConcat_facts c d m y
    rw [sepDateString, if_neg (not_or.mpr ⟨hne, by simp [hcont]⟩),
      jsSplit_three c d m y hd hm hy]
    simp [compInterp]
  refine ⟨?_, ?_, ?_, ?_, ?_⟩
  · intro d m y hd0 hm0 hy0 hd hm hy
    obtain ⟨hne, hcont⟩ := sepConcat_facts '/' d m y
    rw [calDateString,
      if_neg (not_or.mpr ⟨hne, by simp [hcont]⟩),
      jsSplit_three '/' d m y hd hm hy]
    simp [compFalsy, compInterp, hd0, hm0, hy0]
  · intro d m y hd hm hy
    exact hsep '/' d m y hd hm hy
  · intro d m y hd hm hy
    exact hsep '-' d m y hd hm hy
  · intro v h
    constructor
    · rw [calDateString, if_pos (Or.inr h)]
    · rw [isracardDateString, sepDateString, if_pos (Or.inr h)]
  · intro v h
    rw [maxDateString, sepDateString, if_pos (Or.inr h)]

/-- Witness for `date_transform_amended` on each vendor's own format. -/
theorem date_transform_amended_witness :
    calDateString ("15" ++ "/" ++ "04" ++ "/" ++ "25")
      = "20" ++ "25" ++ "-" ++ padStart2 "04" ++ "-" ++ padStart2 "15"
    ∧ isracardDateString ("15" ++ "/" ++ "04" ++ "/" ++ "2025")
      = "2025" ++ "-" ++ padStart2 "04" ++ "-" ++ padStart2 "15"
    ∧ maxDateString ("15" ++ "-" ++ "04" ++ "-" ++ "2025")
      = "2025" ++ "-" ++ padStart2 "04" ++ "-" ++ padStart2 "15"
    ∧ calDateString "invalid" = "invalid" :=
  ⟨date_transform_amended.1 "15" "04" "25" (by decide) (by decide) (by decide)
      (by decide) (by decide) (by decide),
    date_transform_amended.2.1 "15" "04" "2025" (by decide) (by decide)
      (by decide),
    date_transform_amended.2.2.1 "15" "04" "2025" (by decide) (by decide)
      (by decide),
    (date_transform_amended.2.2.2.1 "invalid" (by decide)).1⟩

/-- **C2** (amended): under the Poalim mappings (sign conventions as
claimed: credits positive, debits negative), a credit cell `"5000"` yields
amount `50000` and a debit cell `"200"` yields `-2000` — the transform
multiplies by `±10` after stripping the first `.`, so only two-decimal cells
such as `"5000.00"` / `"200.00"` land in milliunits (`5000000` / `-200000`);
this holds for every row regardless of the other columns' contents. -/
theorem poalim_amount_amended (dt op prt acct ref vdt bal : String) :
    tmGet (poalimTransformRow (poalimRow dt op prt acct ref vdt "" "5000" bal))
        "amount" = .vNum 50000
    ∧ tmGet (poalimTransformRow (poalimRow dt op prt acct ref vdt "200" "" bal))
        "amount" = .vNum (-2000)
    ∧ tmGet (poalimTransformRow (poalimRow dt op prt acct ref vdt "" "5000.00" bal))
        "amount" = .vNum 5000000
    ∧ tmGet (poalimTransformRow (poalimRow dt op prt acct ref vdt "200.00" "" bal))
        "amount" = .vNum (-200000) := by
  refine ⟨?_, ?_, ?_, ?_⟩ <;>
    · simp +decide [poalimTransformRow, POALIM_FIELD_MAPPINGS, applyMappingFW,
        poalimRow, tmSet, truthy, poalimDebitTransform, poalimCreditTransform,
        jsParseInt, removeFirstChar, signSplit, natOfDigits, digitVal]
      norm_num

/-- Both Mizrahi amount transforms send a column that is empty (or blank
after trimming) to the sentinel `0`. -/
theorem mizrahiTransform_falsy (s : String) (h : ¬(s ≠ "" ∧ jsTrim s ≠ "")) :
    mizrahiCreditTransform s = .vNum 0 ∧ mizrahiDebitTransform s = .vNum 0 := by
  rcases not_and_or.mp h with h | h
  · simp only [ne_eq, not_not] at h
    subst h
    constructor <;> rfl
  · simp only [ne_eq, not_not] at h
    rw [mizrahiCreditTransform, if_pos (Or.inr (Or.inl h)),
      mizrahiDebitTransform, if_pos (Or.inr (Or.inl h))]
    exact ⟨rfl, rfl⟩

/-- **C5** (amended): Poalim follows first-writer-wins-unless-falsy — the
amount is the debit transform's result when that result is truthy, and
otherwise the credit transform's result.  Mizrahi instead skips the mapping
of the unpopulated column, and when both columns are populated the **later**
credit mapping wins unconditionally: the amount is the credit result whenever
the credit column is populated, else the debit result whenever the debit
column is populated, else the sentinel `0`. -/
theorem amount_writer_amended :
    (∀ dt op prt acct ref vdt bal d c : String,
      tmGet (poalimTransformRow (poalimRow dt op prt acct ref vdt d c bal))
          "amount"
        = if truthy (poalimDebitTransform d) then poalimDebitTransform d
          else poalimCreditTransform c)
    ∧ (∀ dt p mm d c : String,
      tmGet (mizrahiTransformRow (mizrahiRow dt p d c mm)) "amount"
        = if mizrahiHas (mizrahiRow dt p d c mm) "זכות" then
            mizrahiCreditTransform c
          else if mizrahiHas (mizrahiRow dt p d c mm) "חובה" then
            mizrahiDebitTransform d
          else .vNum 0) := by
  constructor
  · intro dt op prt acct ref vdt bal d c
    by_cases h : truthy (poalimDebitTransform d) <;>
      simp +decide [poalimTransformRow, POALIM_FIELD_MAPPINGS, applyMappingFW,
        poalimRow, tmSet, h]
  · intro dt p mm d c
    have hg1 : rowGet? (mizrahiRow dt p d c mm) "תאריך" = some dt := by
      simp +decide [mizrahiRow]
    have hg2 : rowGet? (mizrahiRow dt p d c mm) "סוג תנועה" = some p := by
      simp +decide [mizrahiRow]
    have hg3 : rowGet? (mizrahiRow dt p d c mm) "חובה" = some d := by
      simp +decide [mizrahiRow]
    have hg4 : rowGet? (mizrahiRow dt p d c mm) "זכות" = some c := by
      simp +decide [mizrahiRow]
    have hg5 : rowGet? (mizrahiRow dt p d c mm) "אסמכתא" = some mm := by
      simp +decide [mizrahiRow]
    by_cases hc : (c ≠ "" ∧ jsTrim c ≠ "")
    · have hhc : mizrahiHas (mizrahiRow dt p d c mm) "זכות" = true := by
        simp [mizrahiHas, hg4, hc.1, hc.2]
      by_cases hd : (d ≠ "" ∧ jsTrim d ≠ "")
      · have hhd : mizrahiHas (mizrahiRow dt p d c mm) "חובה" = true := by
          simp [mizrahiHas, hg3, hd.1, hd.2]
        by_cases h0 : mizrahiCreditTransform c = .vNum 0 <;>
          simp +decide [mizrahiTransformRow, MIZRAHI_TFAHOT_FIELD_MAPPINGS,
            tmSet, hg1, hg2, hg3, hg4, hg5, hhc, hhd, h0]
      · have hhd : mizrahiHas (mizrahiRow dt p d c mm) "חובה" = false := by
          simp only [mizrahiHas, hg3]
          simpa using hd
        by_cases h0 : mizrahiCreditTransform c = .vNum 0 <;>
          simp +decide [mizrahiTransformRow, MIZRAHI_TFAHOT_FIELD_MAPPINGS,
            tmSet, hg1, hg2, hg3, hg4, hg5, hhc, hhd, h0]
    · have hhc : mizrahiHas (mizrahiRow dt p d c mm) "זכות" = false := by
        simp only [mizrahiHas, hg4]
        simpa using hc
      by_cases hd : (d ≠ "" ∧ jsTrim d ≠ "")
      · have hhd : mizrahiHas (mizrahiRow dt p d c mm) "חובה" = true := by
          simp [mizrahiHas, hg3, hd.1, hd.2]
        by_cases h0 : mizrahiDebitTransform d = .vNum 0 <;>
          simp +decide [mizrahiTransformRow, MIZRAHI_TFAHOT_FIELD_MAPPINGS,
            tmSet, hg1, hg2, hg3, hg4, hg5, hhc, hhd, h0]
      · have hhd : mizrahiHas (mizrahiRow dt p d c mm) "חובה" = false := by
          simp only [mizrahiHas, hg3]
          simpa using hd
        have hfc := mizrahiTransform_falsy c hc
        have hfd := mizrahiTransform_falsy d hd
        simp +decide [mizrahiTransformRow, MIZRAHI_TFAHOT_FIELD_MAPPINGS,
          tmSet, hg1, hg2, hg3, hg4, hg5, hhc, hhd, hfc.1, hfd.2]

/-- **C7** (amended): balance extraction is best-effort and the analyzers'
extract operations are total, but a located-nothing outcome is surfaced as
`finalBalance = 0` (never `null`/`undefined`): whenever the internal locator
returns `null`, `analyzeDiscountFile` and `analyzeMizrahiTfahotFile` return
`0`. -/
theorem balance_fallback_amended :
    (∀ sheet : CellMap, extractBalanceFromSheet sheet = none →
      analyzeDiscountBalance sheet = 0)
    ∧ (∀ wb : Workbook, findBalanceInWorkbook wb = none →
      analyzeMizrahiBalance wb = .vNum 0) := by
  constructor
  · intro sheet h
    simp [analyzeDiscountBalance, h]
  · intro wb h
    simp [analyzeMizrahiBalance, h]

/-- Witness for `balance_fallback_amended` at concrete balance-free
inputs. -/
theorem balance_fallback_amended_witness :
    analyzeDiscountBalance emptyCellMap = 0
    ∧ analyzeMizrahiBalance [] = .vNum 0 :=
  ⟨balance_fallback_amended.1 emptyCellMap rfl,
    balance_fallback_amended.2 [] rfl⟩

/-- **C8** (amended): on a CSV no registered detector matches, the
`utils/fileAnalyzer.ts` dispatcher returns `{vendorInfo: null,
identifier: null}` (also on parse errors) — a valid non-error outcome —
while the `analyzers/fileAnalyzer.ts` dispatcher **throws** the
unknown-format error. -/
theorem csv_dispatch_amended :
    (∀ fn fields rows, isPoalimFileUtils fn fields = none →
      scanRowsForVendor rows = none →
      utilsAnalyzeCSVContent fn false fields rows = (none, none))
    ∧ (∀ fn fields rows, utilsAnalyzeCSVContent fn true fields rows = (none, none))
    ∧ (∀ (fn : String) r rest,
      jsStartsWith fn "פירוט חיובים לכרטיס" = false →
      jsStartsWith fn "Export_" = false →
      jsIncludes (jsToLower fn) "transaction-details_export_" = false →
      poalimDetectCSV fn (r :: rest) = .ok false →
      analyzersCSVDispatch fn (r :: rest) = .error UNKNOWN_FORMAT_ERROR) := by
  refine ⟨fun fn fields rows h1 h2 => ?_, fun fn fields rows => rfl,
    fun fn r rest h1 h2 h3 h4 => ?_⟩
  · simp [utilsAnalyzeCSVContent, h1, h2]
  · simp [analyzersCSVDispatch, registeredCSVDetectors,
      analyzersCSVDispatchLoop, calDetectCSV, isracardDetectCSV, maxDetectCSV,
      mizrahiDetectCSV, discountDetectCSV, h1, h2, h3, h4]

/-- Witness for `csv_dispatch_amended` at a concrete unmatched CSV. -/
theorem csv_dispatch_amended_witness :
    utilsAnalyzeCSVContent "data.csv" false ["foo"] [[("foo", "bar")]]
      = (none, none)
    ∧ utilsAnalyzeCSVContent "data.csv" true ["foo"] [[("foo", "bar")]]
      = (none, none)
    ∧ analyzersCSVDispatch "other.csv" [[("foo", "bar")]]
      = .error UNKNOWN_FORMAT_ERROR :=
  ⟨csv_dispatch_amended.1 "data.csv" ["foo"] [[("foo", "bar")]]
      (by decide) (by decide),
    csv_dispatch_amended.2.1 "data.csv" ["foo"] [[("foo", "bar")]],
    csv_dispatch_amended.2.2 "other.csv" [("foo", "bar")] []
      (by decide) (by decide) (by decide) (by decide)⟩

/-- Counterexample to **C4**: the Cal transform prefixes `20` to *any* year,
so the well-formed `DD/MM/YYYY` input `"15/04/2025"` is mangled to
`"202025-04-15"` (neither ISO nor unchanged); the Isracard transform never
expands 2-digit years, so `"15/04/25"` becomes `"25-04-15"`; and a
wrong-arity input `"15/4"` is not passed through unchanged but interpolated
as `"undefined-04-15"`. -/
theorem date_transform_counterexample :
    calDateString "15/04/2025" = "202025-04-15"
    ∧ calDateString "15/04/2025" ≠ "2025-04-15"
    ∧ calDateString "15/04/2025" ≠ "15/04/2025"
    ∧ isracardDateString "15/04/25" = "25-04-15"
    ∧ isracardDateString "15/04/25" ≠ "2025-04-15"
    ∧ isracardDateString "15/4" = "undefined-04-15"
    ∧ isracardDateString "15/4" ≠ "15/4" := by
  with_unfolding_all decide

/-- Counterexample to **C5**: in the Mizrahi row transform, when both the
debit and the credit columns are populated, the *later* credit mapping
overwrites the earlier debit mapping even though the debit result `-300000`
is truthy and not a sentinel: the row `{חובה: "300", זכות: "500"}` yields
amount `500000`, not the first writer's `-300000`. -/
theorem amount_writer_counterexample :
    tmGet (mizrahiTransformRow (mizrahiRow "01/05/25" "תיקון" "300" "500"
        "12345")) "amount" = .vNum 500000
    ∧ mizrahiDebitTransform "300" = .vNum (-300000)
    ∧ JsVal.vNum (-300000) ≠ .vNum 0 ∧ (500000 : ℚ) ≠ -300000 := by
  refine ⟨?_, ?_, by norm_num, by norm_num⟩
  · simp +decide [mizrahiTransformRow, MIZRAHI_TFAHOT_FIELD_MAPPINGS,
      mizrahiRow, mizrahiHas, tmSet, mizrahiDebitTransform,
      mizrahiCreditTransform, mizrahiDateString, jsTrim, trimChars,
      jsStringToNumber, signSplit, natOfDigits, digitVal, fracOfDigits,
      jsRound, jsSplit, splitChar, padStart2, compInterp]
    norm_num
    exact fun h => absurd h (by decide)
  · simp [mizrahiDebitTransform, jsTrim, trimChars, jsStringToNumber,
      signSplit, natOfDigits, digitVal, fracOfDigits, jsRound]
    norm_num

/-- Counterexample to **C6**: a row whose amount source cell holds
`"לא מספר"` is **not** dropped: on the Cal unit-test worksheet all three
scanned rows are emitted (the sentinel row with `amount: null`), and in the
Max pipeline the sentinel row also survives the `isNaN` filter because the
transform yields `null` and `isNaN(null) === false` — contradicting the
claimed drop (the Max analyzer's own unit test expects 2 rows). -/
theorem sentinel_row_counterexample :
    (calTransactions calSheetSentinel).map (fun t => tmGet t "amount")
        = [.vNum (-100000), .vNull, .vNum (-30000)]
    ∧ (calTransactions calSheetSentinel).length = 3
    ∧ (maxSheetTransactions maxSheetSentinel).map (fun t => tmGet t "amount")
        = [.vNum (-100000), .vNull, .vNum (-30000)]
    ∧ (maxSheetTransactions maxSheetSentinel).length = 3 := by
  have hraw : calRawTransactions calSheetSentinel =
      [ [("תאריך עסקה", "10/04/25"), ("שם בית עסק", "סופר"), ("סכום חיוב", "100")],
        [("תאריך עסקה", "12/04/25"), ("שם בית עסק", "חנות"), ("סכום חיוב", "לא מספר")],
        [("תאריך עסקה", "13/04/25"), ("שם בית עסק", "תחבורה"), ("סכום חיוב", "30")] ] := by
    decide
  have hrawm : maxRawTransactions maxSheetSentinel =
      [ [("תאריך עסקה", .vStr "10-04-2025"), ("שם בית העסק", .vStr "סופר"),
          ("סכום חיוב", .vNum 100)],
        [("תאריך עסקה", .vStr "12-04-2025"), ("שם בית העסק", .vStr "חנות"),
          ("סכום חיוב", .vStr "לא מספר")],
        [("תאריך עסקה", .vStr "13-04-2025"), ("שם בית העסק", .vStr "תחבורה"),
          ("סכום חיוב", .vNum 30)] ] := by
    decide
  have hsentC : calAmountTransform "לא מספר" = .vNull := by decide
  have h100 : calAmountTransform "100" = .vNum (-100000) := by
    simp [calAmountTransform, jsParseFloat, signSplit, natOfDigits, digitVal,
      fracOfDigits]
    norm_num
  have h30 : calAmountTransform "30" = .vNum (-30000) := by
    simp [calAmountTransform, jsParseFloat, signSplit, natOfDigits, digitVal,
      fracOfDigits]
    norm_num
  have hsentM : maxAmountTransform (.vStr "לא מספר") = .vNull := by decide
  have hm100 : maxAmountTransform (.vNum 100) = .vNum (-100000) := by
    simp [maxAmountTransform, truthy, jsRound]
    norm_num
  have hm30 : maxAmountTransform (.vNum 30) = .vNum (-30000) := by
    simp [maxAmountTransform, truthy, jsRound]
    norm_num
  refine ⟨?_, ?_, ?_, ?_⟩
  · simp +decide [calTransactions, hraw, calTransformTx, CAL_FIELD_MAPPINGS,
      calInitTx, tmSet, truthy, hsentC, h100, h30]
  · simp [calTransactions, hraw]
  · simp +decide [maxSheetTransactions, hrawm, MAX_FIELD_MAPPINGS,
      applyMappingFWJ, tmSet, truthy, jsIsNaN, hsentM, hm100, hm30]
  · simp +decide [maxSheetTransactions, hrawm, MAX_FIELD_MAPPINGS,
      applyMappingFWJ, tmSet, truthy, jsIsNaN, hsentM, hm100, hm30]

/-- **C6** (amended): a row whose amount source holds the `לא מספר` sentinel
is *retained*, with `amount = null` (neither `0` nor `NaN`): the Cal analyzer
never filters transformed rows (one output per scanned row, deliberately —
"Don't filter out transactions with null amounts"), and the Max `isNaN`
filter does not remove a `null` amount because `isNaN(null) === false`; on
the Max unit-test worksheet no row is dropped. -/
theorem sentinel_row_amended :
    (∀ sheet : CalSheet,
      (calTransactions sheet).length = (calRawTransactions sheet).length)
    ∧ calAmountTransform "לא מספר" = .vNull
    ∧ maxAmountTransform (.vStr "לא מספר") = .vNull
    ∧ JsVal.vNull ≠ .vNum 0
    ∧ jsIsNaN .vNull = false
    ∧ (maxSheetTransactions maxSheetSentinel).length
        = (maxRawTransactions maxSheetSentinel).length := by
  refine ⟨fun sheet => List.length_map _ _, by decide, by decide, by decide,
    rfl, ?_⟩
  have hrawm : maxRawTransactions maxSheetSentinel =
      [ [("תאריך עסקה", .vStr "10-04-2025"), ("שם בית העסק", .vStr "סופר"),
          ("סכום חיוב", .vNum 100)],
        [("תאריך עסקה", .vStr "12-04-2025"), ("שם בית העסק", .vStr "חנות"),
          ("סכום חיוב", .vStr "לא מספר")],
        [("תאריך עסקה", .vStr "13-04-2025"), ("שם בית העסק", .vStr "תחבורה"),
          ("סכום חיוב", .vNum 30)] ] := by
    decide
  have hsentM : maxAmountTransform (.vStr "לא מספר") = .vNull := by decide
  have hm100 : maxAmountTransform (.vNum 100) = .vNum (-100000) := by
    simp [maxAmountTransform, truthy, jsRound]
    norm_num
  have hm30 : maxAmountTransform (.vNum 30) = .vNum (-30000) := by
    simp [maxAmountTransform, truthy, jsRound]
    norm_num
  simp +decide [maxSheetTransactions, hrawm, MAX_FIELD_MAPPINGS,
    applyMappingFWJ, tmSet, truthy, jsIsNaN, hsentM, hm100, hm30]

/-- Counterexample to **C7**: when no balance is located, both cited
analyzers return `finalBalance = 0`, not `null`/`undefined`: the internal
extractors return `null` on the empty sheet, but `analyzeDiscountFile` and
`analyzeMizrahiTfahotFile` coerce that to `0` before returning. -/
theorem balance_fallback_counterexample :
    extractBalanceFromSheet emptyCellMap = none
    ∧ analyzeDiscountBalance emptyCellMap = 0
    ∧ findBalanceInWorkbook [emptyCellMap] = none
    ∧ analyzeMizrahiBalance [emptyCellMap] = .vNum 0
    ∧ JsVal.vNum 0 ≠ .vNull ∧ JsVal.vNum 0 ≠ .vUndefined := by
  refine ⟨rfl, rfl, rfl, rfl, by simp, by simp⟩

/-- Counterexample to **C8**: the `analyzers/fileAnalyzer.ts` CSV dispatch
does not return `{vendor: null, identifier: null}` on a file no registered
detector matches — it throws
`'Unknown file format. Could not determine bank or credit card format.'`. -/
theorem csv_dispatch_counterexample :
    analyzersCSVDispatch "data.csv" [[("foo", "bar")]]
      = .error UNKNOWN_FORMAT_ERROR := by
  with_unfolding_all decide

/-- Counterexample to **C9**: `extractAmountFromHebrewText` does not return
the longest contiguous numeric substring — the regex's first alternative
takes at most 3 leading digits, so on `"12345"` the scan yields matches
`12̲3̲` and `45` and the function returns `123`, not `12345`. -/
theorem extract_amount_counterexample :
    extractAmountFromHebrewText "12345" = some 123 ∧ (123 : ℚ) ≠ 12345 := by
  refine ⟨by with_unfolding_all decide, by norm_num⟩

/-- Counterexample to **C10**: the detectors are not total — on a file whose
name passes the filename guard but whose sheet has fewer rows than the fixed
header-row index, `isCalFile`/`isIsracardFile`/`isMaxFile` throw a
`TypeError` (`sheetJson[k]` is `undefined`); moreover `isMaxFile` returns a
boolean, not `null`-or-identifier, on a well-formed Max sheet. -/
theorem detector_totality_counterexample :
    isCalFileDetect "פירוט חיובים לכרטיס ויזה.xlsx" [] = .error "TypeError"
    ∧ isIsracardFileDetect "Export_1.xls" [[.vStr "x"]] = .error "TypeError"
    ∧ isMaxFileDetect "transaction-details_export_1.xlsx" [[.vStr "x"]]
        = .error "TypeError"
    ∧ isMaxFileDetect "transaction-details_export_2025.xlsx" maxSheetDetect
        = .ok true := by
  set_option maxRecDepth 8000 in with_unfolding_all decide

theorem digit_not_ws {c : Char} (h : c.isDigit = true) :
    c.isWhitespace = false := by
  by_contra hw
  rw [Bool.not_eq_false] at hw
  have hw' : ((c = ' ' ∨ c = '\t') ∨ c = '\x0d') ∨ c = '\n' := by
    simpa [Char.isWhitespace] using hw
  rcases hw' with ((rfl | rfl) | rfl) | rfl <;> exact absurd h (by decide)

theorem digit_ne_dash {c : Char} (h : c.isDigit = true) : ¬ c = '-' :=
  fun e => absurd (e ▸ h) (by decide)

theorem digit_ne_plus {c : Char} (h : c.isDigit = true) : ¬ c = '+' :=
  fun e => absurd (e ▸ h) (by decide)

theorem digit_ne_comma {c : Char} (h : c.isDigit = true) : ¬ c = ',' :=
  fun e => absurd (e ▸ h) (by decide)

/-- The scan yields no match exactly when the input has no digit (for any
fuel covering the input). -/
theorem regexScanF_nil_iff : ∀ (fuel : ℕ) (l : List Char), l.length ≤ fuel →
    (regexScanF fuel l = [] ↔ ∀ c ∈ l, ¬(c.isDigit = true)) := by
  intro fuel
  induction fuel with
  | zero =>
    intro l hl
    have hnil : l = [] := List.length_eq_zero.mp (Nat.le_zero.mp hl)
    subst hnil
    simp [regexScanF]
  | succ fuel ih =>
    intro l hl
    cases l with
    | nil => simp [regexScanF]
    | cons c rest =>
      rw [regexScanF]
      by_cases hc : c.isDigit = true
      · rw [if_pos hc]
        simp [hc]
      · rw [if_neg hc]
        have hrest : rest.length ≤ fuel := by
          simp only [List.length_cons] at hl
          omega
        rw [ih rest hrest]
        simp [hc]

/-- Every match produced by the scan starts with a digit. -/
theorem regexScanF_mem_digit : ∀ (fuel : ℕ) (l m : List Char),
    m ∈ regexScanF fuel l → ∃ c t, m = c :: t ∧ c.isDigit = true := by
  intro fuel
  induction fuel with
  | zero =>
    intro l m h
    simp [regexScanF] at h
  | succ fuel ih =>
    intro l m h
    cases l with
    | nil => simp [regexScanF] at h
    | cons c rest =>
      rw [regexScanF] at h
      by_cases hc : c.isDigit = true
      · rw [if_pos hc] at h
        rcases List.mem_cons.mp h with h | h
        · exact ⟨c, _, by rw [h, matchNumFrom], hc⟩
        · exact ih _ _ h
      · rw [if_neg hc] at h
        exact ih _ _ h

/-- The longest-match fold returns an element of the list or its initial
accumulator. -/
theorem foldl_best_mem : ∀ (ms : List (List Char)) (init : List Char),
    ms.foldl (fun best m => if best.length < m.length then m else best) init ∈ ms
    ∨ ms.foldl (fun best m => if best.length < m.length then m else best) init
        = init := by
  intro ms
  induction ms with
  | nil => intro init; right; rfl
  | cons a as ih =>
    intro init
    simp only [List.foldl_cons]
    rcases ih (if init.length < a.length then a else init) with h | h
    · exact Or.inl (List.mem_cons_of_mem _ h)
    · rw [h]
      by_cases hl : init.length < a.length
      · rw [if_pos hl]
        exact Or.inl (List.mem_cons_self _ _)
      · rw [if_neg hl]
        exact Or.inr rfl

/-- On a non-empty match list whose head is non-empty, the longest match is
an element of the list. -/
theorem longestMatch_mem {a : List Char} {as : List (List Char)}
    (ha : a ≠ []) : longestMatch (a :: as) ∈ a :: as := by
  rw [longestMatch]
  simp only [List.foldl_cons]
  have hlen : ([] : List Char).length < a.length := by
    cases a with
    | nil => exact absurd rfl ha
    | cons x xs => simp
  rw [if_pos hlen]
  rcases foldl_best_mem as a with h | h
  · exact List.mem_cons_of_mem _ h
  · rw [h]
    exact List.mem_cons_self _ _

/-- `parseFloat` succeeds on any string starting with a digit. -/
theorem jsParseFloat_digit_head (c : Char) (t : List Char)
    (hc : c.isDigit = true) : (jsParseFloat ⟨c :: t⟩).isSome = true := by
  rw [jsParseFloat]
  have hdata : (⟨c :: t⟩ : String).data = c :: t := rfl
  rw [hdata, List.dropWhile_cons, digit_not_ws hc]
  simp only [Bool.false_eq_true, if_false, signSplit, digit_ne_dash hc,
    digit_ne_plus hc, if_false, List.takeWhile_cons, hc, if_true]
  simp

/-- **C9** (amended): `extractAmountFromHebrewText` returns the comma-stripped
float value of the longest regex match
(`\d{1,3}(,\d{3})*(\.\d{1,2})?`, first of equal length winning), and `null`
exactly when the input has no digit; the longest match can be shorter than
the longest contiguous digit run (`"12345"` yields `123`), but on the
documented balance line it correctly prefers `5,259.19` over the shorter
embedded runs and returns `5259.19`. -/
theorem extract_amount_amended :
    extractAmountFromHebrewText "עסקאות לחיוב ב-02/05/2025: 5,259.19 ₪"
      = some (525919 / 100 : ℚ)
    ∧ (∀ s : String, extractAmountFromHebrewText s = none
        ↔ ∀ c ∈ s.data, ¬(c.isDigit = true))
    ∧ extractAmountFromHebrewText "12345" = some 123 := by
  refine ⟨?_, fun s => ?_, ?_⟩
  · have hne0 : ("עסקאות לחיוב ב-02/05/2025: 5,259.19 ₪" : String) ≠ "" := by
      decide
    have hEmpty :
        (regexScan ("עסקאות לחיוב ב-02/05/2025: 5,259.19 ₪").data).isEmpty
          = false := by decide
    have hlong :
        (longestMatch
            (regexScan ("עסקאות לחיוב ב-02/05/2025: 5,259.19 ₪").data)).filter
            (· ≠ ',')
          = "5259.19".data := by decide
    rw [extractAmountFromHebrewText, if_neg hne0]
    simp only [hEmpty, Bool.false_eq_true, if_false, hlong]
    have hA : ("5259.19").data.dropWhile Char.isWhitespace = "5259.19".data := by
      decide
    have hmk : (⟨"5259.19".data⟩ : String) = "5259.19" := rfl
    have hB : signSplit ("5259.19".data) = (1, "5259.19".data) := by decide
    have hC : ("5259.19".data).takeWhile Char.isDigit = ['5', '2', '5', '9'] := by
      decide
    have hD : ("5259.19".data).dropWhile Char.isDigit = ['.', '1', '9'] := by
      decide
    rw [hmk, jsParseFloat, hA, hB]
    simp only [hC, hD]
    have hE : (['1', '9'] : List Char).takeWhile Char.isDigit = ['1', '9'] := by
      decide
    have hN : natOfDigits ['5', '2', '5', '9'] = 5259 := by decide
    have hF : natOfDigits ['1', '9'] = 19 := by decide
    norm_num [hE, hN, hF, fracOfDigits]
  · by_cases hs : s = ""
    · subst hs
      have hd : ("" : String).data = [] := rfl
      simp [extractAmountFromHebrewText, hd]
    · rw [extractAmountFromHebrewText, if_neg hs]
      rcases hscan : regexScan s.data with _ | ⟨m0, ms'⟩
      · simp only [hscan, List.isEmpty_nil, if_true]
        simp only [true_iff]
        exact (regexScanF_nil_iff s.data.length s.data le_rfl).mp hscan
      · simp only [hscan, List.isEmpty_cons, Bool.false_eq_true, if_false]
        have hm0 : m0 ∈ regexScan s.data := by
          rw [hscan]
          exact List.mem_cons_self _ _
        obtain ⟨c0, t0, he0, hd0⟩ := regexScanF_mem_digit _ _ _ hm0
        have hmem : longestMatch (m0 :: ms') ∈ m0 :: ms' :=
          longestMatch_mem (by rw [he0]; simp)
        have hmem' : longestMatch (m0 :: ms') ∈ regexScan s.data := by
          rw [hscan]
          exact hmem
        obtain ⟨c, t, he, hd⟩ := regexScanF_mem_digit _ _ _ hmem'
        have hfil : (longestMatch (m0 :: ms')).filter (· ≠ ',')
            = c :: t.filter (· ≠ ',') := by
          rw [he, List.filter_cons]
          simp [digit_ne_comma hd]
        rw [hfil]
        have hsome := jsParseFloat_digit_head c (t.filter (· ≠ ',')) hd
        constructor
        · intro h
          rw [h] at hsome
          cases hsome
        · intro h
          exfalso
          have : regexScan s.data = [] :=
            (regexScanF_nil_iff s.data.length s.data le_rfl).mpr h
          rw [hscan] at this
          cases this
  · have hne0 : ("12345" : String) ≠ "" := by decide
    have hEmpty : (regexScan ("12345").data).isEmpty = false := by decide
    have hlong : (longestMatch (regexScan ("12345").data)).filter (· ≠ ',')
        = "123".data := by decide
    rw [extractAmountFromHebrewText, if_neg hne0]
    simp only [hEmpty, Bool.false_eq_true, if_false, hlong]
    have hmk : (⟨"123".data⟩ : String) = "123" := rfl
    have hA : ("123").data.dropWhile Char.isWhitespace = "123".data := by decide
    have hB : signSplit ("123".data) = (1, "123".data) := by decide
    have hC : ("123".data).takeWhile Char.isDigit = ['1', '2', '3'] := by decide
    have hD : ("123".data).dropWhile Char.isDigit = [] := by decide
    rw [hmk, jsParseFloat, hA, hB]
    simp only [hC, hD]
    have hN : natOfDigits ['1', '2', '3'] = 123 := by decide
    have hZ : natOfDigits ([] : List Char) = 0 := by decide
    norm_num [hN, hZ, fracOfDigits]

/-- **C10** (amended): each detector returns a non-throwing "no match" value
without touching the sheet whenever its filename test fails (`null` for
Cal/Isracard, `false` for Max — a boolean, not an identifier string); when
the filename matches, the detector throws a `TypeError` **exactly** when the
sheet has fewer rows than the fixed header-row index it inspects (Cal: 5
rows, Isracard: 6, Max: 4); with enough rows it never throws. -/
theorem detector_totality_amended :
    (∀ fn s, isCalFileDetect fn s = .error "TypeError"
        ↔ (jsStartsWith fn "פירוט חיובים לכרטיס" = true ∧ s.length < 5))
    ∧ (∀ fn s, isIsracardFileDetect fn s = .error "TypeError"
        ↔ (jsStartsWith fn "Export_" = true ∧ s.length < 6))
    ∧ (∀ fn s, isMaxFileDetect fn s = .error "TypeError"
        ↔ (jsIncludes (jsToLower fn) "transaction-details_export_" = true
            ∧ s.length < 4))
    ∧ (∀ fn s, jsStartsWith fn "פירוט חיובים לכרטיס" = false →
        isCalFileDetect fn s = .ok none)
    ∧ (∀ fn s, jsStartsWith fn "Export_" = false →
        isIsracardFileDetect fn s = .ok none)
    ∧ (∀ fn s, jsIncludes (jsToLower fn) "transaction-details_export_" = false →
        isMaxFileDetect fn s = .ok false) := by
  refine ⟨fun fn s => ?_, fun fn s => ?_, fun fn s => ?_,
    fun fn s h => by simp [isCalFileDetect, h],
    fun fn s h => by simp [isIsracardFileDetect, h],
    fun fn s h => by simp [isMaxFileDetect, h]⟩
  · by_cases hg : jsStartsWith fn "פירוט חיובים לכרטיס" = true
    · rcases hnth : s[4]? with _ | row
      · have hlen := List.getElem?_eq_none_iff.mp hnth
        simp [isCalFileDetect, hg, hnth]
        omega
      · have hlen : ¬ s.length ≤ 4 := fun hle => by
          rw [List.getElem?_eq_none hle] at hnth
          cases hnth
        simp only [isCalFileDetect, hg, not_true, if_false, hnth]
        constructor
        · intro h
          split at h <;> cases h
        · intro h
          omega
    · simp [isCalFileDetect, hg]
  · by_cases hg : jsStartsWith fn "Export_" = true
    · rcases hnth : s[5]? with _ | row
      · have hlen := List.getElem?_eq_none_iff.mp hnth
        simp [isIsracardFileDetect, hg, hnth]
        omega
      · have hlen : ¬ s.length ≤ 5 := fun hle => by
          rw [List.getElem?_eq_none hle] at hnth
          cases hnth
        simp only [isIsracardFileDetect, hg, not_true, if_false, hnth]
        constructor
        · intro h
          split at h <;> cases h
        · intro h
          omega
    · simp [isIsracardFileDetect, hg]
  · by_cases hg : jsIncludes (jsToLower fn) "transaction-details_export_" = true
    · rcases hnth : s[3]? with _ | row
      · have hlen := List.getElem?_eq_none_iff.mp hnth
        simp [isMaxFileDetect, hg, hnth]
        omega
      · have hlen : ¬ s.length ≤ 3 := fun hle => by
          rw [List.getElem?_eq_none hle] at hnth
          cases hnth
        simp only [isMaxFileDetect, hg, not_true, if_false, hnth]
        constructor
        · intro h
          cases h
        · intro h
          omega
    · simp [isMaxFileDetect, hg]

/-- Witness for `detector_totality_amended` at concrete inputs. -/
theorem detector_totality_amended_witness :
    isCalFileDetect "statement.xlsx" [] = .ok none
    ∧ isIsracardFileDetect "statement.xlsx" [] = .ok none
    ∧ isMaxFileDetect "statement.xlsx" [] = .ok false
    ∧ (isCalFileDetect "פירוט חיובים לכרטיס 1.xlsx" [[]] = .error "TypeError"
        ↔ (jsStartsWith "פירוט חיובים לכרטיס 1.xlsx" "פירוט חיובים לכרטיס" = true
            ∧ ([[]] : List JRow).length < 5)) :=
  ⟨detector_totality_amended.2.2.2.1 "statement.xlsx" [] (by decide),
    detector_totality_amended.2.2.2.2.1 "statement.xlsx" [] (by decide),
    detector_totality_amended.2.2.2.2.2 "statement.xlsx" [] (by decide),
    detector_totality_amended.1 "פירוט חיובים לכרטיס 1.xlsx" [[]]⟩

end Ynab
